import Mathlib

/-!
# Verification of the Sacred Soundscapes audio-analysis core

Shallow embedding of the analysis pipeline of the repository:
* `src/lib/musicBrain.ts` — class `MusicBrain` (feature extraction and music
  context classification);
* the color module — class `ColorBrain` (palette generation, refinement and
  temporal smoothing);
* the `neural` mode of `src/components/AudioVisualizer.tsx`
  (`drawNeuralNetwork`).

Modelling conventions.
* JS numbers are modelled as real numbers in `MusicBrain` (whose code takes
  square roots) and as rationals in `ColorBrain` and for the data reaching it
  (whose arithmetic is `+ * % floor min max parseInt`, all exact on `ℚ`,
  keeping every palette computation executable).
* A JS arithmetic step that produces `NaN` — which in this code can only come
  from the division `0/0` of a statistic over an empty slice — is modelled by
  `Option.none`; every division whose divisor can be zero goes through
  `mean?` / `jsDiv`, and the propagation of `NaN` through later arithmetic is
  the `Option` bind.
* `Math.random()` is an injectable stream `ℕ → ℚ` of draws, consumed in call
  order (one stream for the particle jitter, one for the complexity jitter).
* A CSS color string `hsl(h, s%, l%)` is represented by its channel triple
  `HSL`; the template string of the source determines the string from the
  triple and vice versa.  JS number→string formatting yields a pure digit
  token exactly for the nonnegative integers in the magnitude range arising
  here, which is the only token shape the `parseHSL` regex
  `hsl\((\d+), (\d+)%, (\d+)%\)` accepts, and `parseInt` then returns that
  same integer; so the regex match succeeds precisely on triples of
  nonnegative integers, giving the triple back.
-/

set_option maxRecDepth 40000

namespace SacredVis

/-- JS `Array.prototype.slice(a, b)` (with `0 ≤ a ≤ b`). -/
def jsSlice (l : List ℝ) (a b : ℕ) : List ℝ := (l.take b).drop a

/-- JS division `a / b` where `b` can be `0`: `0/0` (the only case arising,
from statistics over empty slices) is `NaN`, modelled `none`. -/
noncomputable def jsDiv (a b : ℝ) : Option ℝ := if b = 0 then none else some (a / b)

/-- `list.reduce((sum, v) => sum + v, 0) / list.length`: the mean, `NaN`
(`none`) on an empty list. -/
noncomputable def mean? (l : List ℝ) : Option ℝ :=
  if l.length = 0 then none else some (l.sum / (l.length : ℝ))

/-- The 5 mood values of `AudioFeatures['mood']`. -/
inductive Mood
  | calm | energetic | dramatic | mysterious | joyful
  deriving DecidableEq

/-- The 7 genre values of `MusicContext['genreHint']`. -/
inductive GenreHint
  | electronic | acoustic | classical | rock | ambient | voice | mixed
  deriving DecidableEq

/-- `interface AudioFeatures`, generic in the number type (ℝ for the
extractor, ℚ for the data handed to the color module). -/
structure AudioFeaturesG (α : Type) where
  bass : α
  mid : α
  treble : α
  rhythm : α
  melody : α
  harmony : α
  dynamics : α
  energy : α
  tempo : α
  mood : Mood
  deriving DecidableEq

/-- `interface MusicContext`, generic in the number type. -/
structure MusicContextG (α : Type) where
  beatDrop : Bool
  vocalPresence : Bool
  instrumentalDensity : α
  emotionalIntensity : α
  genreHint : GenreHint
  deriving DecidableEq

abbrev AudioFeatures := AudioFeaturesG ℝ
abbrev MusicContext := MusicContextG ℝ

/-- The mutable instance state of class `MusicBrain`. -/
structure MusicBrainState where
  previousFeatures : Option AudioFeatures
  beatHistory : List ℝ
  energyHistory : List ℝ
  time : ℕ

/-- Field initialisers of `MusicBrain`. -/
def initialState : MusicBrainState := ⟨none, [], [], 0⟩

namespace MusicBrain

/-- `extractBass`: mean of `audioData.slice(0, 32)`. -/
noncomputable def extractBass (audioData : List ℝ) : Option ℝ :=
  mean? (jsSlice audioData 0 32)

/-- `extractMid`: mean of `audioData.slice(32, 96)`. -/
noncomputable def extractMid (audioData : List ℝ) : Option ℝ :=
  mean? (jsSlice audioData 32 96)

/-- `extractTreble`: mean of `audioData.slice(96)` — the source divides by
`trebleRange.length` with no emptiness guard, so a frame of length ≤ 96
produces `0/0`. -/
noncomputable def extractTreble (audioData : List ℝ) : Option ℝ :=
  mean? (audioData.drop 96)

/-- `calculateConsistency`. -/
noncomputable def calculateConsistency (values : List ℝ) : Option ℝ :=
  if values.length < 2 then some 0 else do
    let mean ← mean? values
    let variance ← mean? (values.map fun val => (val - mean) ^ 2)
    pure (max 0 (1 - Real.sqrt variance))

/-- `analyzeRhythm` — note the guard is `beatHistory.length > 4`, and
`slice(-4)` is `drop (length - 4)` (ℕ subtraction truncates at 0 exactly as
the JS negative index clamps). -/
noncomputable def analyzeRhythm (st : MusicBrainState) (bass mid : ℝ) : Option ℝ :=
  let rhythmicStrength := max (bass * 1.2) (mid * 0.8)
  if st.beatHistory.length > 4 then do
    let recentBeats := st.beatHistory.drop (st.beatHistory.length - 4)
    let consistency ← calculateConsistency recentBeats
    pure (rhythmicStrength * (1 + consistency * 0.5))
  else
    pure rhythmicStrength

/-- `analyzeMelody`. -/
noncomputable def analyzeMelody (st : MusicBrainState) (mid treble : ℝ) : ℝ :=
  let melodicContent := mid * 0.6 + treble * 0.8
  match st.previousFeatures with
  | some prev =>
      let movement := |melodicContent - (prev.mid * 0.6 + prev.treble * 0.8)|
      min 1 (melodicContent + movement * 0.3)
  | none => melodicContent

/-- `calculateCorrelation`: the index loop `for i in [0, arr1.length)` is the
sum over `Finset.range arr1.length` of the indexed accesses. -/
noncomputable def calculateCorrelation (arr1 arr2 : List ℝ) : Option ℝ :=
  if arr1.length ≠ arr2.length then some 0 else do
    let mean1 ← mean? arr1
    let mean2 ← mean? arr2
    let numerator := ∑ i ∈ Finset.range arr1.length,
      (arr1.getD i 0 - mean1) * (arr2.getD i 0 - mean2)
    let denominator1 := ∑ i ∈ Finset.range arr1.length,
      (arr1.getD i 0 - mean1) * (arr1.getD i 0 - mean1)
    let denominator2 := ∑ i ∈ Finset.range arr1.length,
      (arr2.getD i 0 - mean2) * (arr2.getD i 0 - mean2)
    let denominator := Real.sqrt (denominator1 * denominator2)
    pure (if denominator = 0 then 0 else numerator / denominator)

/-- `analyzeHarmony`: 8 segments, correlations of the 7 adjacent pairs. -/
noncomputable def analyzeHarmony (audioData : List ℝ) : Option ℝ := do
  let segments : ℕ := 8
  let segmentSize := audioData.length / segments
  let correlations ← (List.range (segments - 1)).mapM fun i =>
    calculateCorrelation
      (jsSlice audioData (i * segmentSize) ((i + 1) * segmentSize))
      (jsSlice audioData ((i + 1) * segmentSize) ((i + 2) * segmentSize))
  pure (correlations.sum / ((segments : ℝ) - 1))

/-- `analyzeDynamics`. -/
noncomputable def analyzeDynamics (audioData : List ℝ) : Option ℝ := do
  let average ← mean? audioData
  let variance ← mean? (audioData.map fun val => (val - average) ^ 2)
  pure (min 1 (Real.sqrt variance * 2))

/-- `calculateEnergy`. -/
noncomputable def calculateEnergy (audioData : List ℝ) : Option ℝ := do
  let meanSquare ← mean? (audioData.map fun val => val * val)
  pure (min 1 (Real.sqrt meanSquare * 2))

/-- `estimateTempo` — `slice(-8)` is `drop (length - 8)`. -/
noncomputable def estimateTempo (st : MusicBrainState) (_rhythm : ℝ) : Option ℝ :=
  if st.beatHistory.length < 8 then some 120 else do
    let recentBeats := st.beatHistory.drop (st.beatHistory.length - 8)
    let avgBeatStrength ← mean? recentBeats
    pure (60 + avgBeatStrength * 120)

/-- `determineMood`: the cascade of ifs, first match wins. -/
noncomputable def determineMood (energy harmony dynamics : ℝ) : Mood :=
  if energy < 0.3 ∧ harmony > 0.6 then .calm
  else if energy > 0.7 ∧ dynamics > 0.5 then .energetic
  else if harmony < 0.4 ∧ dynamics > 0.6 then .dramatic
  else if energy < 0.5 ∧ harmony < 0.5 then .mysterious
  else .joyful

/-- `detectBeatDrop` (uses the previous tick's features). -/
noncomputable def detectBeatDrop (st : MusicBrainState) (features : AudioFeatures) : Bool :=
  match st.previousFeatures with
  | none => false
  | some prev =>
      decide (features.bass - prev.bass > 0.3) && decide (features.energy - prev.energy > 0.2)

/-- `detectVocalPresence`. -/
noncomputable def detectVocalPresence (audioData : List ℝ) : Option Bool := do
  let vocalLow ← mean? (jsSlice audioData 8 24)
  let vocalHigh ← mean? (jsSlice audioData 80 120)
  pure (decide ((vocalLow + vocalHigh) / 2 > 0.4))

/-- `calculateInstrumentalDensity`. -/
noncomputable def calculateInstrumentalDensity (audioData : List ℝ) : Option ℝ :=
  jsDiv ((audioData.filter fun val => decide (val > 0.1)).length : ℝ) (audioData.length : ℝ)

/-- `detectGenre`: the cascade of ifs, first match wins. -/
noncomputable def detectGenre (features : AudioFeatures) : GenreHint :=
  if features.bass > 0.7 ∧ features.energy > 0.6 then .electronic
  else if features.harmony > 0.7 ∧ features.energy < 0.4 then .classical
  else if features.rhythm > 0.6 ∧ features.bass > 0.5 then .rock
  else if features.energy < 0.3 ∧ features.harmony > 0.5 then .ambient
  else if features.mid > 0.6 ∧ features.melody > 0.5 then .voice
  else .acoustic

/-- `analyzeContext`. -/
noncomputable def analyzeContext (st : MusicBrainState) (features : AudioFeatures)
    (audioData : List ℝ) : Option MusicContext := do
  let beatDrop := detectBeatDrop st features
  let vocalPresence ← detectVocalPresence audioData
  let instrumentalDensity ← calculateInstrumentalDensity audioData
  let emotionalIntensity := (features.energy + features.dynamics + features.harmony) / 3
  let genreHint := detectGenre features
  pure ⟨beatDrop, vocalPresence, instrumentalDensity, emotionalIntensity, genreHint⟩

/-- `updateHistory`: push, then `shift()` (drop the head) past 20 entries. -/
def updateHistory (st : MusicBrainState) (rhythm energy : ℝ) : MusicBrainState :=
  let beat := st.beatHistory ++ [rhythm]
  let beat := if beat.length > 20 then beat.drop 1 else beat
  let energyH := st.energyHistory ++ [energy]
  let energyH := if energyH.length > 20 then energyH.drop 1 else energyH
  { st with beatHistory := beat, energyHistory := energyH }

/-- `analyzeAudio`: the per-tick entry point.  `previousFeatures` is replaced
and the history pushed only after the context is classified, exactly as in
the source. -/
noncomputable def analyzeAudio (st : MusicBrainState) (audioData : List ℝ) :
    Option (AudioFeatures × MusicContext × MusicBrainState) := do
  let st := { st with time := st.time + 1 }
  let bass ← extractBass audioData
  let mid ← extractMid audioData
  let treble ← extractTreble audioData
  let rhythm ← analyzeRhythm st bass mid
  let melody := analyzeMelody st mid treble
  let harmony ← analyzeHarmony audioData
  let dynamics ← analyzeDynamics audioData
  let energy ← calculateEnergy audioData
  let tempo ← estimateTempo st rhythm
  let mood := determineMood energy harmony dynamics
  let features : AudioFeatures :=
    ⟨bass, mid, treble, rhythm, melody, harmony, dynamics, energy, tempo, mood⟩
  let context ← analyzeContext st features audioData
  let st := { st with previousFeatures := some features }
  let st := updateHistory st rhythm energy
  pure (features, context, st)

end MusicBrain

/-! ## ColorBrain -/

/-- The channel triple of a color string `hsl(h, s%, l%)`. -/
structure HSL where
  h : ℚ
  s : ℚ
  l : ℚ
  deriving DecidableEq

/-- `interface ColorPalette`. -/
structure ColorPalette where
  primary : HSL
  secondary : HSL
  accent : HSL
  background : HSL
  glow : HSL
  particles : List HSL
  deriving DecidableEq

/-- `ColorMood['temperature']`. -/
inductive Temperature
  | warm | cool | neutral
  deriving DecidableEq

/-- `interface ColorMood`. -/
structure ColorMood where
  name : String
  temperature : Temperature
  saturation : ℚ
  brightness : ℚ
  contrast : ℚ
  deriving DecidableEq

/-- The features record as its rational values reach the color module. -/
abbrev QFeatures := AudioFeaturesG ℚ

/-- The context record as its rational values reach the color module. -/
abbrev QContext := MusicContextG ℚ

/-- The mutable instance state of class `ColorBrain`. -/
structure ColorBrainState where
  colorHistory : List ColorPalette
  transitionSpeed : ℚ
  deriving DecidableEq

/-- Field initialisers of `ColorBrain` (`transitionSpeed = 0.1`). -/
def initialColorState : ColorBrainState := ⟨[], 1/10⟩

/-- JS truncation toward zero (`Math.trunc`, implicit in the `%` operator):
the floor for a nonnegative argument, `-⌊-q⌋` (the ceiling) for a negative
one.  Written with `Rat.floor` so that it evaluates in the kernel. -/
def jsTrunc (q : ℚ) : ℤ := if q < 0 then -((-q).floor) else q.floor

/-- The JS remainder operator `%`: the result carries the sign of the
dividend (so it can be negative for a negative left operand). -/
def jsMod (a b : ℚ) : ℚ := a - b * (jsTrunc (a / b) : ℚ)

namespace ColorBrain

/-- The serialisation of `mood : Mood` in a template string. -/
def moodText : Mood → String
  | .calm => "calm"
  | .energetic => "energetic"
  | .dramatic => "dramatic"
  | .mysterious => "mysterious"
  | .joyful => "joyful"

/-- `getMoodName`. -/
def getMoodName (mood : Mood) (energy harmony : ℚ) : String :=
  let intensity := if energy > 0.6 then "intense" else if energy > 0.3 then "moderate" else "gentle"
  let harmonyLevel :=
    if harmony > 0.6 then "harmonious" else if harmony > 0.3 then "balanced" else "chaotic"
  intensity ++ "-" ++ moodText mood ++ "-" ++ harmonyLevel

/-- `analyzeMood`: the three temperature rules are applied in source order,
so a later matching rule overwrites an earlier one. -/
def analyzeMood (features : QFeatures) (context : QContext) : ColorMood :=
  let temperature : Temperature := .neutral
  let temperature :=
    if features.bass > 0.6 ∨ context.genreHint = .electronic then .cool else temperature
  let temperature :=
    if features.harmony > 0.6 ∨ context.genreHint = .acoustic then .warm else temperature
  let temperature :=
    if features.mood = .mysterious ∨ features.mood = .dramatic then .cool else temperature
  let saturation := min 100 (40 + features.energy * 60 + features.dynamics * 30)
  let brightness := min 100 (30 + features.treble * 40 + context.emotionalIntensity * 30)
  let contrast := min 100 (20 + features.dynamics * 50 + features.energy * 30)
  ⟨getMoodName features.mood features.energy features.harmony,
   temperature, saturation, brightness, contrast⟩

/-- `generateParticleColors`: `particleCount = Math.floor(3 + energy*5)`;
iteration `i` draws `rng (2*i)` for the saturation jitter and `rng (2*i+1)`
for the lightness jitter. -/
def generateParticleColors (baseHue saturation lightness : ℚ) (features : QFeatures)
    (rng : ℕ → ℚ) : List HSL :=
  let particleCount := (⌊3 + features.energy * 5⌋).toNat
  (List.range particleCount).map fun (i : ℕ) =>
    let hueShift := (360 / (particleCount : ℚ)) * (i : ℚ)
    let particleHue := jsMod (baseHue + hueShift) 360
    let particleSat := saturation + (rng (2 * i) - 0.5) * 30
    let particleLight := lightness + (rng (2 * i + 1) - 0.5) * 40
    ⟨particleHue, max 0 (min 100 particleSat), max 10 (min 90 particleLight)⟩

/-- `createBasePalette` — the scaled saturation/lightness channels of
`secondary`, `accent`, `background`, `glow` are written into the template
strings without any clamping. -/
def createBasePalette (features : QFeatures) (context : QContext) (mood : ColorMood)
    (rng : ℕ → ℚ) : ColorPalette :=
  let baseHue : ℚ :=
    match context.genreHint with
    | .electronic => 240 + features.bass * 60
    | .acoustic => 30 + features.harmony * 60
    | .classical => 200 + features.harmony * 80
    | .rock => 0 + features.energy * 60
    | .ambient => 180 + features.mid * 120
    | .voice => if context.vocalPresence then 45 + context.emotionalIntensity * 90 else 200
    | .mixed => features.bass * 120 + features.treble * 240
  let baseHue := jsMod baseHue 360
  let primaryHue := baseHue
  let secondaryHue := jsMod (baseHue + 120) 360
  let accentHue := jsMod (baseHue + 240) 360
  let backgroundHue := jsMod (baseHue + 180) 360
  let saturation := mood.saturation
  let lightness := mood.brightness
  { primary := ⟨primaryHue, saturation, lightness⟩
    secondary := ⟨secondaryHue, saturation * 0.8, lightness * 0.9⟩
    accent := ⟨accentHue, saturation * 1.2, lightness * 1.1⟩
    background := ⟨backgroundHue, saturation * 0.3, lightness * 0.2⟩
    glow := ⟨primaryHue, saturation * 1.5, lightness * 1.3⟩
    particles := generateParticleColors baseHue saturation lightness features rng }

/-- Whether a channel value is formatted by the template string as a token
the regex group `(\d+)` matches: a nonnegative integer. -/
def isDigitToken (q : ℚ) : Bool := q.den = 1 && 0 ≤ q.num

/-- `parseHSL`: the regex match succeeds exactly when all three channels are
digit tokens, in which case `parseInt` gives the channels back; on any other
string the function returns `{h: 0, s: 0, l: 0}`. -/
def parseHSL (c : HSL) : HSL :=
  if isDigitToken c.h && isDigitToken c.s && isDigitToken c.l then c else ⟨0, 0, 0⟩

/-- The per-color body of `intensifyPalette`. -/
def intensify (factor : ℚ) (color : HSL) : HSL :=
  let hsl := parseHSL color
  ⟨hsl.h, min 100 (hsl.s * factor), min 90 (hsl.l * factor)⟩

/-- `intensifyPalette`. -/
def intensifyPalette (palette : ColorPalette) (factor : ℚ) : ColorPalette :=
  { palette with
    primary := intensify factor palette.primary
    accent := intensify factor palette.accent
    glow := intensify factor palette.glow
    particles := palette.particles.map (intensify factor) }

/-- `shiftTowardsWarmth`: `warmHues.reduce` starts from the head `0` and
folds over `[30, 60]`. -/
def shiftTowardsWarmth (hue amount : ℚ) : ℚ :=
  let closestWarmHue := [(30 : ℚ), 60].foldl
    (fun closest warmHue => if |hue - warmHue| < |hue - closest| then warmHue else closest) 0
  let shift := (closestWarmHue - hue) * amount
  jsMod (hue + shift + 360) 360

/-- The per-color body of `addWarmth`. -/
def warmify (amount : ℚ) (color : HSL) : HSL :=
  let hsl := parseHSL color
  ⟨shiftTowardsWarmth hsl.h amount, hsl.s, hsl.l⟩

/-- `addWarmth` (touches `primary`, `secondary`, `glow` only). -/
def addWarmth (palette : ColorPalette) (amount : ℚ) : ColorPalette :=
  { palette with
    primary := warmify amount palette.primary
    secondary := warmify amount palette.secondary
    glow := warmify amount palette.glow }

/-- `addComplexity`: appends `min(5, Math.floor(length*0.5))` jittered copies
of the leading particle colors. -/
def addComplexity (particles : List HSL) (rng : ℕ → ℚ) : List HSL :=
  let additionalCount := min 5 (particles.length / 2)
  particles ++ (List.range additionalCount).map fun i =>
    let baseColor := particles.getD (i % particles.length) ⟨0, 0, 0⟩
    let hsl := parseHSL baseColor
    ⟨jsMod (hsl.h + (rng i - 0.5) * 60) 360, hsl.s, hsl.l⟩

/-- The per-color body of `adjustSaturation`. -/
def adjustSatColor (intensity : ℚ) (color : HSL) : HSL :=
  let hsl := parseHSL color
  ⟨hsl.h, min 100 (hsl.s * (1 + intensity * 0.5)), hsl.l⟩

/-- `adjustSaturation`. -/
def adjustSaturation (palette : ColorPalette) (intensity : ℚ) : ColorPalette :=
  { palette with
    primary := adjustSatColor intensity palette.primary
    secondary := adjustSatColor intensity palette.secondary
    accent := adjustSatColor intensity palette.accent
    particles := palette.particles.map (adjustSatColor intensity) }

/-- `refineForContext`: the four refinements in source order. -/
def refineForContext (palette : ColorPalette) (context : QContext) (rng : ℕ → ℚ) :
    ColorPalette :=
  let refinedPalette := palette
  let refinedPalette :=
    if context.beatDrop then intensifyPalette refinedPalette 1.5 else refinedPalette
  let refinedPalette :=
    if context.vocalPresence then addWarmth refinedPalette 0.3 else refinedPalette
  let refinedPalette :=
    if context.instrumentalDensity > 0.7 then
      { refinedPalette with particles := addComplexity refinedPalette.particles rng }
    else refinedPalette
  let refinedPalette :=
    if context.emotionalIntensity > 0.8 then
      adjustSaturation refinedPalette context.emotionalIntensity
    else refinedPalette
  refinedPalette

/-- `interpolateHue` (shortest-arc, via the JS `%`). -/
def interpolateHue (h1 h2 t : ℚ) : ℚ :=
  let diff := jsMod (h2 - h1 + 180) 360 - 180
  jsMod (h1 + diff * t + 360) 360

/-- The `blend` closure of `smoothTransition`. -/
def blend (speed : ℚ) (color1 color2 : HSL) : HSL :=
  let hsl1 := parseHSL color1
  let hsl2 := parseHSL color2
  ⟨interpolateHue hsl1.h hsl2.h speed,
   hsl1.s + (hsl2.s - hsl1.s) * speed,
   hsl1.l + (hsl2.l - hsl1.l) * speed⟩

/-- `smoothTransition`: blends against the last palette in history; a new
particle index with no counterpart in the last palette passes through. -/
def smoothTransition (speed : ℚ) (colorHistory : List ColorPalette)
    (newPalette : ColorPalette) : ColorPalette :=
  match colorHistory.getLast? with
  | none => newPalette
  | some lastPalette =>
      { primary := blend speed lastPalette.primary newPalette.primary
        secondary := blend speed lastPalette.secondary newPalette.secondary
        accent := blend speed lastPalette.accent newPalette.accent
        background := blend speed lastPalette.background newPalette.background
        glow := blend speed lastPalette.glow newPalette.glow
        particles := newPalette.particles.mapIdx fun i color =>
          match lastPalette.particles[i]? with
          | some lastColor => blend speed lastColor color
          | none => color }

/-- `ColorBrain.updateHistory`: push, then `shift()` past 10 entries. -/
def updateColorHistory (colorHistory : List ColorPalette) (palette : ColorPalette) :
    List ColorPalette :=
  let h := colorHistory ++ [palette]
  if h.length > 10 then h.drop 1 else h

/-- `generatePalette`: the per-tick entry point of `ColorBrain`. -/
def generatePalette (st : ColorBrainState) (features : QFeatures) (context : QContext)
    (rngParticles rngComplexity : ℕ → ℚ) : ColorPalette × ColorBrainState :=
  let mood := analyzeMood features context
  let basePalette := createBasePalette features context mood rngParticles
  let refinedPalette := refineForContext basePalette context rngComplexity
  let finalPalette := smoothTransition st.transitionSpeed st.colorHistory refinedPalette
  (finalPalette, { st with colorHistory := updateColorHistory st.colorHistory finalPalette })

/-- `setTransitionSpeed`. -/
def setTransitionSpeed (st : ColorBrainState) (speed : ℚ) : ColorBrainState :=
  { st with transitionSpeed := max 0.01 (min 1 speed) }

end ColorBrain

/-! ## The neural render mode of AudioVisualizer -/

namespace Neural

/-- A node of `drawNeuralNetwork`. -/
structure NNode where
  x : ℝ
  y : ℝ
  intensity : ℝ

/-- Node construction of `drawNeuralNetwork` (`nodeCount = 20`); the
`data[…] || 0` access is `getD … 0`. -/
noncomputable def mkNodes (centerX centerY : ℝ) (data : List ℝ) (time : ℝ) : List NNode :=
  (List.range 20).map fun (i : ℕ) =>
    let angle := ((i : ℝ) / 20) * Real.pi * 2
    let radius := 100 + Real.sin (time + (i : ℝ)) * 50
    ⟨centerX + Real.cos angle * radius,
     centerY + Real.sin angle * radius,
     data.getD (i * (data.length / 20)) 0⟩

/-- The connection loop of `drawNeuralNetwork`: for every `i < j` a line from
node `i` to node `j` is stroked when the distance is below 150 and **either**
endpoint's intensity exceeds 0.3 (the source condition is
`nodes[i].intensity > 0.3 || nodes[j].intensity > 0.3`). -/
noncomputable def drawConnections (nodes : List NNode) : List (NNode × NNode) :=
  (List.range nodes.length).flatMap fun i =>
    (List.range' (i + 1) (nodes.length - (i + 1))).filterMap fun j =>
      let a := nodes.getD i ⟨0, 0, 0⟩
      let b := nodes.getD j ⟨0, 0, 0⟩
      if Real.sqrt ((a.x - b.x) ^ 2 + (a.y - b.y) ^ 2) < 150 ∧
          (a.intensity > 0.3 ∨ b.intensity > 0.3)
      then some (a, b) else none

/-- `drawNeuralNetwork`, abstracted to the primitives it emits: the stroked
connection segments and the filled nodes (those with intensity ≥ 0.1). -/
noncomputable def drawNeuralNetwork (centerX centerY : ℝ) (data : List ℝ) (time : ℝ) :
    List (NNode × NNode) × List NNode :=
  let nodes := mkNodes centerX centerY data time
  (drawConnections nodes, nodes.filter fun node => decide (¬ node.intensity < 0.1))

end Neural

/-! ## Concrete inputs and spec-side predicates used by the analyses -/

/-- The pinned random source of the claims' scenarios (`Math.random()` frozen
at `0.5`, which makes every jitter term vanish). -/
def rngHalf : ℕ → ℚ := fun _ => 1/2

/-- Features record: full energy, all other scalars zero. -/
def featsEnergy : QFeatures := ⟨0, 0, 0, 0, 0, 0, 0, 1, 0, .joyful⟩

/-- Context record: electronic genre hint, everything else off. -/
def ctxElectronic : QContext := ⟨false, false, 0, 0, .electronic⟩

/-- Features record with `energy = 1/60` (mood saturation `41`, so the scaled
secondary/accent/background/glow channels are all fractional). -/
def featsSmallEnergy : QFeatures := ⟨0, 0, 0, 0, 0, 0, 0, 1/60, 0, .joyful⟩

/-- Context record with `instrumentalDensity = 0.8` and a rock genre hint. -/
def ctxDense : QContext := ⟨false, false, 4/5, 0, .rock⟩

/-- An all-integer palette (input for the smoothing fixed-point witness). -/
def paletteIntegral : ColorPalette :=
  ⟨⟨240, 100, 50⟩, ⟨0, 80, 45⟩, ⟨120, 96, 55⟩, ⟨60, 30, 10⟩, ⟨240, 100, 65⟩,
   [⟨240, 100, 50⟩, ⟨0, 100, 50⟩]⟩

/-- 16 samples alternating `1,0`. -/
def segA : List ℝ := [1, 0, 1, 0, 1, 0, 1, 0, 1, 0, 1, 0, 1, 0, 1, 0]

/-- 16 samples alternating `0,1`. -/
def segB : List ℝ := [0, 1, 0, 1, 0, 1, 0, 1, 0, 1, 0, 1, 0, 1, 0, 1]

/-- A 128-sample frame (all samples in `[0,1]`) whose eight 16-sample
segments alternate between `segA` and `segB`, so each of the 7 adjacent
segment pairs is perfectly anti-correlated. -/
def frameAlt : List ℝ := segA ++ segB ++ segA ++ segB ++ segA ++ segB ++ segA ++ segB

/-- A channel triple is integral when all three channels are nonnegative
integers — the only shape the `parseHSL` regex accepts — with the hue below
360 so that the shortest-arc interpolation at equal endpoints is the
identity. -/
def integralColor (c : HSL) : Prop :=
  (c.h.den = 1 ∧ 0 ≤ c.h ∧ c.h < 360) ∧ (c.s.den = 1 ∧ 0 ≤ c.s) ∧ (c.l.den = 1 ∧ 0 ≤ c.l)

instance : DecidablePred integralColor := fun c => by unfold integralColor; infer_instance

/-- All channels of a palette, particles included, are integral. -/
def integralPalette (P : ColorPalette) : Prop :=
  integralColor P.primary ∧ integralColor P.secondary ∧ integralColor P.accent ∧
  integralColor P.background ∧ integralColor P.glow ∧ ∀ c ∈ P.particles, integralColor c

instance : DecidablePred integralPalette := fun P => by unfold integralPalette; infer_instance

/-- Node at the origin with full intensity. -/
def nodeHot : Neural.NNode := ⟨0, 0, 1⟩

/-- Node 10px away from the origin with zero intensity. -/
def nodeCold : Neural.NNode := ⟨10, 0, 0⟩

/-- The features `analyzeAudio` computes from `frameAlt` on a first tick:
bass, mid and treble average to 1/2; every adjacent segment pair has
correlation −1, so harmony is −1. -/
noncomputable def featAlt : AudioFeatures :=
  ⟨1/2, 1/2, 1/2, 3/5, 7/10, -1, 1, 1, 120, .energetic⟩

/-- The context `analyzeAudio` computes from `frameAlt` on a first tick. -/
noncomputable def ctxAlt : MusicContext := ⟨false, true, 1/2, 1/3, .acoustic⟩

/-- The brain state after one `frameAlt` tick from the initial state. -/
noncomputable def stAlt : MusicBrainState := ⟨some featAlt, [3/5], [1], 1⟩

/-- The rational image of `featAlt` — the features handed to `ColorBrain`
after the `frameAlt` tick (all its values are exact rationals). -/
def featAltQ : QFeatures := ⟨1/2, 1/2, 1/2, 3/5, 7/10, -1, 1, 1, 120, .energetic⟩

/-- The rational image of `ctxAlt`. -/
def ctxAltQ : QContext := ⟨false, true, 1/2, 1/3, .acoustic⟩

/-! ## Helper lemmas: means and bounded statistics -/

lemma mean?_eq_some {l : List ℝ} (h : l ≠ []) :
    mean? l = some (l.sum / (l.length : ℝ)) := by
  simp [mean?, List.length_eq_zero, h]

lemma sum_le_mul_length {l : List ℝ} {b : ℝ} (h : ∀ x ∈ l, x ≤ b) :
    l.sum ≤ (l.length : ℝ) * b := by
  simpa [nsmul_eq_mul] using List.sum_le_card_nsmul l b h

lemma mul_length_le_sum {l : List ℝ} {a : ℝ} (h : ∀ x ∈ l, a ≤ x) :
    (l.length : ℝ) * a ≤ l.sum := by
  simpa [nsmul_eq_mul] using List.card_nsmul_le_sum l a h

lemma mean?_bounds {l : List ℝ} {a b : ℝ} (hne : l ≠ [])
    (h : ∀ x ∈ l, a ≤ x ∧ x ≤ b) :
    ∃ m, mean? l = some m ∧ a ≤ m ∧ m ≤ b := by
  have hlen : (0 : ℝ) < (l.length : ℝ) := by
    exact_mod_cast List.length_pos.mpr hne
  refine ⟨l.sum / (l.length : ℝ), mean?_eq_some hne, ?_, ?_⟩
  · rw [le_div_iff₀ hlen, mul_comm]
    exact mul_length_le_sum fun x hx => (h x hx).1
  · rw [div_le_iff₀ hlen, mul_comm]
    exact sum_le_mul_length fun x hx => (h x hx).2

lemma mean?_replicate {n : ℕ} {x : ℝ} (h : n ≠ 0) :
    mean? (List.replicate n x) = some x := by
  have hn : ((n : ℝ)) ≠ 0 := Nat.cast_ne_zero.mpr h
  rw [mean?_eq_some (by simp [h])]
  congr 1
  rw [List.sum_replicate, nsmul_eq_mul, List.length_replicate]
  field_simp

/-! ## C4: statistics over empty slices -/

/-- C4 (counterexample): on the 96-sample frame of the claim, `extractTreble`
evaluates the division `0/0` of the empty treble slice — `NaN`, not the `0`
the claim states. -/
theorem C4_counterexample :
    MusicBrain.extractTreble (List.replicate 96 (0 : ℝ)) = none ∧
      MusicBrain.extractTreble (List.replicate 96 (0 : ℝ)) ≠ some 0 := by
  constructor
  · simp [MusicBrain.extractTreble, mean?]
  · simp [MusicBrain.extractTreble, mean?]

/-- C4 (amended): for every frame of at most 96 samples the treble slice
`frame.slice(96)` is empty, and `extractTreble` computes `0/0` (`NaN`,
modelled `none`) instead of `0` — there is no division-by-zero guard. -/
theorem C4_empty_slice_is_nan (frame : List ℝ) (h : frame.length ≤ 96) :
    MusicBrain.extractTreble frame = none := by
  have hd : (frame.drop 96).length = 0 := by simp [List.length_drop]; omega
  simp [MusicBrain.extractTreble, mean?, hd]

/-- C4 (witness): the amended theorem applied to a 50-sample frame. -/
theorem C4_witness :
    (List.replicate 50 (1 : ℝ)).length ≤ 96 ∧
      MusicBrain.extractTreble (List.replicate 50 (1 : ℝ)) = none :=
  ⟨by simp, C4_empty_slice_is_nan _ (by simp)⟩

/-! ## C7: the rhythm consistency multiplier -/

lemma calculateConsistency_some (l : List ℝ) :
    ∃ c, MusicBrain.calculateConsistency l = some c ∧ 0 ≤ c ∧ c ≤ 1 := by
  unfold MusicBrain.calculateConsistency
  by_cases h : l.length < 2
  · exact ⟨0, by simp [h], le_refl 0, zero_le_one⟩
  · have hne : l ≠ [] := by
      intro hl; rw [hl] at h; simp at h
    have hne2 : l.map (fun val => (val - l.sum / (l.length : ℝ)) ^ 2) ≠ [] := by
      simpa using hne
    refine ⟨max 0 (1 - Real.sqrt ((l.map fun val =>
      (val - l.sum / (l.length : ℝ)) ^ 2).sum /
        ((l.map fun val => (val - l.sum / (l.length : ℝ)) ^ 2).length : ℝ))), ?_, ?_, ?_⟩
    · simp only [if_neg h, mean?_eq_some hne, mean?_eq_some hne2, Option.bind_eq_bind,
        Option.some_bind, Option.pure_def]
    · exact le_max_left _ _
    · apply max_le (by norm_num)
      have := Real.sqrt_nonneg ((l.map fun val =>
        (val - l.sum / (l.length : ℝ)) ^ 2).sum /
          ((l.map fun val => (val - l.sum / (l.length : ℝ)) ^ 2).length : ℝ))
      linarith

/-- C7 (counterexample): with exactly 4 entries in the beat history — whose
consistency is 1 — the source's guard `beatHistory.length > 4` fails, so the
rhythm stays at `max(bass·1.2, mid·0.8) = 1.2` instead of the
`1.2·(1 + 1·0.5) = 1.8` the claim requires for a ≥4-entry history. -/
theorem C7_counterexample :
    MusicBrain.analyzeRhythm ⟨none, [1, 1, 1, 1], [], 0⟩ 1 0 = some (6/5) ∧
      MusicBrain.calculateConsistency [1, 1, 1, 1] = some 1 ∧
      (6/5 : ℝ) ≠ (6/5) * (1 + 1 * 0.5) := by
  refine ⟨?_, ?_, by norm_num⟩
  · simp only [MusicBrain.analyzeRhythm]
    rw [if_neg (by simp)]
    simp only [Option.pure_def, Option.some.injEq]
    rw [max_eq_left (by norm_num)]
    norm_num
  · have hm : mean? [(1 : ℝ), 1, 1, 1] = some 1 := by
      rw [mean?_eq_some (by simp)]; norm_num
    have hv : mean? ([(1 : ℝ), 1, 1, 1].map fun val => (val - 1) ^ 2) = some 0 := by
      rw [mean?_eq_some (by simp)]; norm_num
    simp only [MusicBrain.calculateConsistency]
    rw [if_neg (by simp)]
    simp only [hm, hv, Option.bind_eq_bind, Option.some_bind, Option.pure_def,
      Real.sqrt_zero, Option.some.injEq]
    norm_num

/-- C7 (amended): `rhythm = max(bass·1.2, mid·0.8)`, and the consistency
multiplier `(1 + consistency(last 4)·0.5)` is applied exactly when the beat
history holds **more than 4** entries (i.e. from the 6th tick on); with 4 or
fewer entries — in particular with exactly 4 — the raw strength is
returned. -/
theorem C7_rhythm_multiplier (st : MusicBrainState) (bass mid : ℝ) :
    (st.beatHistory.length ≤ 4 →
      MusicBrain.analyzeRhythm st bass mid = some (max (bass * 1.2) (mid * 0.8))) ∧
    (5 ≤ st.beatHistory.length →
      ∃ c, MusicBrain.calculateConsistency
          (st.beatHistory.drop (st.beatHistory.length - 4)) = some c ∧ 0 ≤ c ∧ c ≤ 1 ∧
        MusicBrain.analyzeRhythm st bass mid =
          some (max (bass * 1.2) (mid * 0.8) * (1 + c * 0.5))) := by
  constructor
  · intro h
    simp only [MusicBrain.analyzeRhythm]
    rw [if_neg (by omega)]
    rfl
  · intro h
    obtain ⟨c, hc, hc0, hc1⟩ :=
      calculateConsistency_some (st.beatHistory.drop (st.beatHistory.length - 4))
    refine ⟨c, hc, hc0, hc1, ?_⟩
    simp only [MusicBrain.analyzeRhythm]
    rw [if_pos (by omega)]
    simp only [hc, Option.bind_eq_bind, Option.some_bind, Option.pure_def]

/-- C7 (witness): the amended theorem at a 5-entry history (multiplier
applied) and a 4-entry history (not applied). -/
theorem C7_witness :
    (5 ≤ ([1, 1, 1, 1, 1] : List ℝ).length ∧
      ∃ c, MusicBrain.calculateConsistency
          (([1, 1, 1, 1, 1] : List ℝ).drop (([1, 1, 1, 1, 1] : List ℝ).length - 4)) =
            some c ∧ 0 ≤ c ∧ c ≤ 1 ∧
        MusicBrain.analyzeRhythm ⟨none, [1, 1, 1, 1, 1], [], 0⟩ 1 0 =
          some (max ((1 : ℝ) * 1.2) (0 * 0.8) * (1 + c * 0.5))) ∧
    (([1, 1, 1, 1] : List ℝ).length ≤ 4 ∧
      MusicBrain.analyzeRhythm ⟨none, [1, 1, 1, 1], [], 0⟩ 1 0 =
        some (max ((1 : ℝ) * 1.2) (0 * 0.8))) :=
  ⟨⟨by simp, (C7_rhythm_multiplier ⟨none, [1, 1, 1, 1, 1], [], 0⟩ 1 0).2 (by simp)⟩,
   ⟨by simp, (C7_rhythm_multiplier ⟨none, [1, 1, 1, 1], [], 0⟩ 1 0).1 (by simp)⟩⟩

/-! ## Helper lemmas: the JS remainder and the color pipeline -/

lemma ratFloor_eq (q : ℚ) : q.floor = ⌊q⌋ := by
  rw [Rat.floor_def', Rat.floor_def]

lemma jsTrunc_of_nonneg {q : ℚ} (h : 0 ≤ q) : jsTrunc q = ⌊q⌋ := by
  unfold jsTrunc
  rw [if_neg (not_lt.mpr h), ratFloor_eq]

lemma jsMod_nonneg_lt {a b : ℚ} (ha : 0 ≤ a) (hb : 0 < b) :
    0 ≤ jsMod a b ∧ jsMod a b < b := by
  have hdiv : 0 ≤ a / b := div_nonneg ha hb.le
  have htr : jsTrunc (a / b) = ⌊a / b⌋ := jsTrunc_of_nonneg hdiv
  have hkey : jsMod a b = b * Int.fract (a / b) := by
    unfold jsMod
    rw [htr, Int.fract, mul_sub, mul_div_cancel₀ _ hb.ne']
  rw [hkey]
  refine ⟨mul_nonneg hb.le (Int.fract_nonneg _), ?_⟩
  calc b * Int.fract (a / b) < b * 1 := mul_lt_mul_of_pos_left (Int.fract_lt_one _) hb
  _ = b := mul_one b

lemma jsMod_add_self {h : ℚ} (h0 : 0 ≤ h) (h360 : h < 360) : jsMod (h + 360) 360 = h := by
  have he : (h + 360) / 360 = h / 360 + 1 := by ring
  have hfl : ⌊h / 360⌋ = 0 := by
    rw [Int.floor_eq_zero_iff]
    constructor
    · positivity
    · rw [div_lt_one (by norm_num)]; exact h360
  have htr : jsTrunc ((h + 360) / 360) = 1 := by
    rw [jsTrunc_of_nonneg (by positivity), he, Int.floor_add_one, hfl]
    norm_num
  unfold jsMod
  rw [htr]
  push_cast
  ring

/-- Evaluates `jsMod a b` at a nonnegative dividend once the quotient's floor
`k` is supplied. -/
lemma jsMod_eval (k : ℤ) {a b : ℚ} (ha : 0 ≤ a) (hb : 0 < b)
    (h1 : b * k ≤ a) (h2 : a < b * (k + 1)) : jsMod a b = a - b * k := by
  have hfl : ⌊a / b⌋ = k := by
    rw [Int.floor_eq_iff]
    refine ⟨?_, ?_⟩
    · rw [le_div_iff₀ hb]
      calc (k : ℚ) * b = b * k := mul_comm _ _
      _ ≤ a := h1
    · rw [div_lt_iff₀ hb]
      calc a < b * (k + 1) := h2
      _ = ((k : ℚ) + 1) * b := by ring
  unfold jsMod
  rw [jsTrunc_of_nonneg (div_nonneg ha hb.le), hfl]

lemma den_ne_one_of {q : ℚ} (h : ∀ z : ℤ, q ≠ (z : ℚ)) : q.den ≠ 1 := by
  intro hd
  exact h q.num ((Rat.den_eq_one_iff q).mp hd).symm

lemma den_164_5 : ((164 : ℚ)/5).den ≠ 1 := by
  apply den_ne_one_of
  intro z hz
  have h5 : (164 : ℚ) = z * 5 := by
    field_simp at hz
    linarith
  have h5' : (164 : ℤ) = z * 5 := by exact_mod_cast h5
  omega

lemma den_246_5 : ((246 : ℚ)/5).den ≠ 1 := by
  apply den_ne_one_of
  intro z hz
  have h5 : (246 : ℚ) = z * 5 := by
    field_simp at hz
    linarith
  have h5' : (246 : ℤ) = z * 5 := by exact_mod_cast h5
  omega

lemma isDigitToken_false_s {q : ℚ} (h : q.den ≠ 1) : ColorBrain.isDigitToken q = false := by
  simp [ColorBrain.isDigitToken, h]

/-- An `HSL` triple whose channels are ℤ-valued (hue below 360) is integral. -/
lemma integralColor_of {c : HSL} (nh ns nl : ℤ) (h1 : c.h = (nh : ℚ)) (h2 : c.s = (ns : ℚ))
    (h3 : c.l = (nl : ℚ)) (h4 : 0 ≤ c.h) (h5 : c.h < 360) (h6 : 0 ≤ c.s) (h7 : 0 ≤ c.l) :
    integralColor c := by
  refine ⟨⟨?_, h4, h5⟩, ⟨?_, h6⟩, ⟨?_, h7⟩⟩
  · rw [h1]; exact Rat.den_intCast nh
  · rw [h2]; exact Rat.den_intCast ns
  · rw [h3]; exact Rat.den_intCast nl

lemma integralPalette_paletteIntegral : integralPalette paletteIntegral := by
  refine ⟨?_, ?_, ?_, ?_, ?_, ?_⟩
  · exact integralColor_of 240 100 50 (by norm_num [paletteIntegral]) (by norm_num [paletteIntegral]) (by norm_num [paletteIntegral])
      (by norm_num [paletteIntegral]) (by norm_num [paletteIntegral]) (by norm_num [paletteIntegral]) (by norm_num [paletteIntegral])
  · exact integralColor_of 0 80 45 (by norm_num [paletteIntegral]) (by norm_num [paletteIntegral]) (by norm_num [paletteIntegral])
      (by norm_num [paletteIntegral]) (by norm_num [paletteIntegral]) (by norm_num [paletteIntegral]) (by norm_num [paletteIntegral])
  · exact integralColor_of 120 96 55 (by norm_num [paletteIntegral]) (by norm_num [paletteIntegral]) (by norm_num [paletteIntegral])
      (by norm_num [paletteIntegral]) (by norm_num [paletteIntegral]) (by norm_num [paletteIntegral]) (by norm_num [paletteIntegral])
  · exact integralColor_of 60 30 10 (by norm_num [paletteIntegral]) (by norm_num [paletteIntegral]) (by norm_num [paletteIntegral])
      (by norm_num [paletteIntegral]) (by norm_num [paletteIntegral]) (by norm_num [paletteIntegral]) (by norm_num [paletteIntegral])
  · exact integralColor_of 240 100 65 (by norm_num [paletteIntegral]) (by norm_num [paletteIntegral]) (by norm_num [paletteIntegral])
      (by norm_num [paletteIntegral]) (by norm_num [paletteIntegral]) (by norm_num [paletteIntegral]) (by norm_num [paletteIntegral])
  · intro c hc
    simp only [paletteIntegral, List.mem_cons, List.not_mem_nil, or_false] at hc
    rcases hc with h | h <;> subst h
    · exact integralColor_of 240 100 50 (by norm_num [paletteIntegral]) (by norm_num [paletteIntegral]) (by norm_num [paletteIntegral])
        (by norm_num [paletteIntegral]) (by norm_num [paletteIntegral]) (by norm_num [paletteIntegral]) (by norm_num [paletteIntegral])
    · exact integralColor_of 0 100 50 (by norm_num [paletteIntegral]) (by norm_num [paletteIntegral]) (by norm_num [paletteIntegral])
        (by norm_num [paletteIntegral]) (by norm_num [paletteIntegral]) (by norm_num [paletteIntegral]) (by norm_num [paletteIntegral])

lemma parseHSL_integral {c : HSL} (h : integralColor c) : ColorBrain.parseHSL c = c := by
  obtain ⟨⟨hd1, hn1, _⟩, ⟨hd2, hn2⟩, ⟨hd3, hn3⟩⟩ := h
  have h1 : 0 ≤ c.h.num := Rat.num_nonneg.mpr hn1
  have h2 : 0 ≤ c.s.num := Rat.num_nonneg.mpr hn2
  have h3 : 0 ≤ c.l.num := Rat.num_nonneg.mpr hn3
  simp [ColorBrain.parseHSL, ColorBrain.isDigitToken, hd1, hd2, hd3, h1, h2, h3]

lemma blend_self (speed : ℚ) {c : HSL} (h : integralColor c) :
    ColorBrain.blend speed c c = c := by
  have hp := parseHSL_integral h
  obtain ⟨⟨_, hh0, hh360⟩, _, _⟩ := h
  rcases c with ⟨ch, cs, cl⟩
  unfold ColorBrain.blend
  rw [hp]
  unfold ColorBrain.interpolateHue
  have e0 : ch - ch + 180 = 180 := by ring
  have e180 : jsMod 180 360 = 180 := by
    rw [jsMod_eval 0 (by norm_num) (by norm_num) (by norm_num) (by norm_num)]
    norm_num
  have e1 : ch + (jsMod (ch - ch + 180) 360 - 180) * speed + 360 = ch + 360 := by
    rw [e0, e180]; ring
  simp only [e1, jsMod_add_self hh0 hh360]
  norm_num

lemma mapIdx_self {α : Type} (l : List α) (f : ℕ → α → α)
    (h : ∀ (i : ℕ) (hi : i < l.length), f i l[i] = l[i]) :
    l.mapIdx f = l := by
  rw [List.mapIdx_eq_iff]
  intro i
  by_cases hi : i < l.length
  · rw [List.getElem?_eq_getElem hi]
    simp [h i hi]
  · rw [List.getElem?_eq_none (by omega)]
    rfl

/-! ## Projection-level evaluation lemmas for the color pipeline -/

lemma smoothTransition_nil (speed : ℚ) (p : ColorPalette) :
    ColorBrain.smoothTransition speed [] p = p := rfl

lemma smoothTransition_single (speed : ℚ) (p q : ColorPalette) :
    ColorBrain.smoothTransition speed [p] q =
      { primary := ColorBrain.blend speed p.primary q.primary
        secondary := ColorBrain.blend speed p.secondary q.secondary
        accent := ColorBrain.blend speed p.accent q.accent
        background := ColorBrain.blend speed p.background q.background
        glow := ColorBrain.blend speed p.glow q.glow
        particles := q.particles.mapIdx fun i color =>
          match p.particles[i]? with
          | some lastColor => ColorBrain.blend speed lastColor color
          | none => color } := rfl

lemma refineForContext_noop {p : ColorPalette} {ctx : QContext} {rng : ℕ → ℚ}
    (h1 : ctx.beatDrop = false) (h2 : ctx.vocalPresence = false)
    (h3 : ¬ ctx.instrumentalDensity > 0.7) (h4 : ¬ ctx.emotionalIntensity > 0.8) :
    ColorBrain.refineForContext p ctx rng = p := by
  simp [ColorBrain.refineForContext, h1, h2, h3, h4]

lemma generatePalette_fresh (features : QFeatures) (context : QContext)
    (rngP rngC : ℕ → ℚ) :
    (ColorBrain.generatePalette initialColorState features context rngP rngC).1 =
      ColorBrain.refineForContext
        (ColorBrain.createBasePalette features context
          (ColorBrain.analyzeMood features context) rngP) context rngC := rfl

lemma analyzeMood_saturation (features : QFeatures) (context : QContext) :
    (ColorBrain.analyzeMood features context).saturation =
      min 100 (40 + features.energy * 60 + features.dynamics * 30) := rfl

lemma analyzeMood_brightness (features : QFeatures) (context : QContext) :
    (ColorBrain.analyzeMood features context).brightness =
      min 100 (30 + features.treble * 40 + context.emotionalIntensity * 30) := rfl

lemma createBase_secondary_s (f : QFeatures) (c : QContext) (m : ColorMood) (rng : ℕ → ℚ) :
    (ColorBrain.createBasePalette f c m rng).secondary.s = m.saturation * 0.8 := rfl

lemma createBase_secondary_l (f : QFeatures) (c : QContext) (m : ColorMood) (rng : ℕ → ℚ) :
    (ColorBrain.createBasePalette f c m rng).secondary.l = m.brightness * 0.9 := rfl

lemma createBase_accent_s (f : QFeatures) (c : QContext) (m : ColorMood) (rng : ℕ → ℚ) :
    (ColorBrain.createBasePalette f c m rng).accent.s = m.saturation * 1.2 := rfl

lemma createBase_accent_l (f : QFeatures) (c : QContext) (m : ColorMood) (rng : ℕ → ℚ) :
    (ColorBrain.createBasePalette f c m rng).accent.l = m.brightness * 1.1 := rfl

lemma createBase_secondary_h_electronic (f : QFeatures) (m : ColorMood) (rng : ℕ → ℚ) :
    (ColorBrain.createBasePalette f ctxElectronic m rng).secondary.h =
      jsMod (jsMod (240 + f.bass * 60) 360 + 120) 360 := rfl

lemma createBase_accent_h_electronic (f : QFeatures) (m : ColorMood) (rng : ℕ → ℚ) :
    (ColorBrain.createBasePalette f ctxElectronic m rng).accent.h =
      jsMod (jsMod (240 + f.bass * 60) 360 + 240) 360 := rfl

lemma blend_s_eq (speed : ℚ) (c1 c2 : HSL) :
    (ColorBrain.blend speed c1 c2).s =
      (ColorBrain.parseHSL c1).s +
        ((ColorBrain.parseHSL c2).s - (ColorBrain.parseHSL c1).s) * speed := rfl

lemma parseHSL_not_digit_s {c : HSL} (h : ColorBrain.isDigitToken c.s = false) :
    ColorBrain.parseHSL c = ⟨0, 0, 0⟩ := by
  unfold ColorBrain.parseHSL
  rw [h]
  simp

/-- The secondary color of the palette a fresh `ColorBrain` generates from
`featsSmallEnergy`/`ctxElectronic`: its saturation `41·0.8 = 32.8` is
fractional. -/
lemma genSmallEnergy_secondary :
    (ColorBrain.generatePalette initialColorState featsSmallEnergy ctxElectronic rngHalf
        rngHalf).1.secondary = ⟨0, 164/5, 27⟩ := by
  have m240 : jsMod 240 360 = 240 := by
    rw [jsMod_eval 0 (by norm_num) (by norm_num) (by norm_num) (by norm_num)]; norm_num
  have m360 : jsMod 360 360 = 0 := by
    rw [jsMod_eval 1 (by norm_num) (by norm_num) (by norm_num) (by norm_num)]; norm_num
  have hP2 : (ColorBrain.generatePalette initialColorState featsSmallEnergy ctxElectronic
      rngHalf rngHalf).1 =
      ColorBrain.createBasePalette featsSmallEnergy ctxElectronic
        (ColorBrain.analyzeMood featsSmallEnergy ctxElectronic) rngHalf := by
    rw [generatePalette_fresh]
    exact refineForContext_noop rfl rfl (by norm_num [ctxElectronic]) (by norm_num [ctxElectronic])
  rw [hP2]
  have hh : (ColorBrain.createBasePalette featsSmallEnergy ctxElectronic
      (ColorBrain.analyzeMood featsSmallEnergy ctxElectronic) rngHalf).secondary.h = 0 := by
    rw [createBase_secondary_h_electronic]
    norm_num [featsSmallEnergy, m240, m360]
  have hs : (ColorBrain.createBasePalette featsSmallEnergy ctxElectronic
      (ColorBrain.analyzeMood featsSmallEnergy ctxElectronic) rngHalf).secondary.s = 164/5 := by
    rw [createBase_secondary_s, analyzeMood_saturation]
    norm_num [featsSmallEnergy, min_def]
  have hl : (ColorBrain.createBasePalette featsSmallEnergy ctxElectronic
      (ColorBrain.analyzeMood featsSmallEnergy ctxElectronic) rngHalf).secondary.l = 27 := by
    rw [createBase_secondary_l, analyzeMood_brightness]
    norm_num [featsSmallEnergy, ctxElectronic, min_def]
  calc (ColorBrain.createBasePalette featsSmallEnergy ctxElectronic
      (ColorBrain.analyzeMood featsSmallEnergy ctxElectronic) rngHalf).secondary =
      ⟨(ColorBrain.createBasePalette featsSmallEnergy ctxElectronic
          (ColorBrain.analyzeMood featsSmallEnergy ctxElectronic) rngHalf).secondary.h,
        (ColorBrain.createBasePalette featsSmallEnergy ctxElectronic
          (ColorBrain.analyzeMood featsSmallEnergy ctxElectronic) rngHalf).secondary.s,
        (ColorBrain.createBasePalette featsSmallEnergy ctxElectronic
          (ColorBrain.analyzeMood featsSmallEnergy ctxElectronic) rngHalf).secondary.l⟩ := rfl
  _ = ⟨0, 164/5, 27⟩ := by rw [hh, hs, hl]

/-! ## C3: smoothing at a constant input -/

/-- C3 (counterexample): the palette a fresh `ColorBrain` generates from
`featsSmallEnergy` has a fractional secondary saturation (32.8), and on that
palette `smoothTransition` is *not* the identity even though the last history
entry equals the new unsmoothed palette — `parseHSL` maps the fractional
channels to `(0,0,0)` — so the constant-input stream does not converge to
the raw palette. -/
theorem C3_counterexample :
    (ColorBrain.generatePalette initialColorState featsSmallEnergy ctxElectronic rngHalf
        rngHalf).1.secondary = ⟨0, 164/5, 27⟩ ∧
    ColorBrain.smoothTransition (1/10)
        [(ColorBrain.generatePalette initialColorState featsSmallEnergy ctxElectronic rngHalf
            rngHalf).1]
        (ColorBrain.generatePalette initialColorState featsSmallEnergy ctxElectronic rngHalf
          rngHalf).1 ≠
      (ColorBrain.generatePalette initialColorState featsSmallEnergy ctxElectronic rngHalf
        rngHalf).1 := by
  refine ⟨genSmallEnergy_secondary, fun hEq => ?_⟩
  have hs := congrArg (fun p : ColorPalette => p.secondary.s) hEq
  rw [smoothTransition_single] at hs
  simp only [genSmallEnergy_secondary] at hs
  rw [blend_s_eq, parseHSL_not_digit_s (show ColorBrain.isDigitToken
    ((⟨0, 164/5, 27⟩ : HSL)).s = false from isDigitToken_false_s den_164_5)] at hs
  norm_num at hs

/-- C3 (amended): the fixed-point half of the claim holds exactly on integral
palettes: when every channel of every color of `P` is a nonnegative integer
(hue below 360) — the only values `parseHSL` round-trips — and `P` is both
the last palette in history and the new unsmoothed palette, `smoothTransition`
returns `P` unchanged, for every transition speed. -/
theorem C3_smoothing_fixed_point (speed : ℚ) (hist : List ColorPalette)
    (P : ColorPalette) (h : integralPalette P) :
    ColorBrain.smoothTransition speed (hist ++ [P]) P = P := by
  obtain ⟨h1, h2, h3, h4, h5, h6⟩ := h
  unfold ColorBrain.smoothTransition
  rw [List.getLast?_concat]
  rcases hP : P with ⟨p1, p2, p3, p4, p5, ps⟩
  rw [hP] at h1 h2 h3 h4 h5 h6
  simp only [ColorPalette.mk.injEq]
  refine ⟨blend_self speed h1, blend_self speed h2, blend_self speed h3,
    blend_self speed h4, blend_self speed h5, ?_⟩
  apply mapIdx_self
  intro i hi
  rw [List.getElem?_eq_getElem hi]
  exact blend_self speed (h6 _ (List.getElem_mem hi))

/-- C3 (witness): the amended theorem at an all-integer palette with empty
prior history. -/
theorem C3_witness :
    integralPalette paletteIntegral ∧
      ColorBrain.smoothTransition (1/10) ([] ++ [paletteIntegral]) paletteIntegral =
        paletteIntegral :=
  ⟨integralPalette_paletteIntegral,
   C3_smoothing_fixed_point (1/10) [] paletteIntegral integralPalette_paletteIntegral⟩

/-! ## C2: channel ranges of the generated palette -/

lemma createBase_glow_s (f : QFeatures) (c : QContext) (m : ColorMood) (rng : ℕ → ℚ) :
    (ColorBrain.createBasePalette f c m rng).glow.s = m.saturation * 1.5 := rfl

lemma createBase_glow_l (f : QFeatures) (c : QContext) (m : ColorMood) (rng : ℕ → ℚ) :
    (ColorBrain.createBasePalette f c m rng).glow.l = m.brightness * 1.3 := rfl

lemma createBase_background_s (f : QFeatures) (c : QContext) (m : ColorMood) (rng : ℕ → ℚ) :
    (ColorBrain.createBasePalette f c m rng).background.s = m.saturation * 0.3 := rfl

lemma createBase_primary_s (f : QFeatures) (c : QContext) (m : ColorMood) (rng : ℕ → ℚ) :
    (ColorBrain.createBasePalette f c m rng).primary.s = m.saturation := rfl

lemma createBase_primary_l (f : QFeatures) (c : QContext) (m : ColorMood) (rng : ℕ → ℚ) :
    (ColorBrain.createBasePalette f c m rng).primary.l = m.brightness := rfl

lemma hue_ok {x : ℚ} (hx : 0 ≤ x) : 0 ≤ jsMod x 360 ∧ jsMod x 360 < 360 :=
  jsMod_nonneg_lt hx (by norm_num)

lemma hue_shift_ok {x k : ℚ} (hx : 0 ≤ x) (hk : 0 ≤ k) :
    0 ≤ jsMod (jsMod x 360 + k) 360 ∧ jsMod (jsMod x 360 + k) 360 < 360 :=
  hue_ok (add_nonneg (hue_ok hx).1 hk)

lemma generateParticleColors_mem {baseHue saturation lightness : ℚ} {features : QFeatures}
    {rng : ℕ → ℚ} (hbase : 0 ≤ baseHue) :
    ∀ c ∈ ColorBrain.generateParticleColors baseHue saturation lightness features rng,
      (0 ≤ c.h ∧ c.h < 360) ∧ (0 ≤ c.s ∧ c.s ≤ 100) ∧ (10 ≤ c.l ∧ c.l ≤ 90) := by
  intro c hc
  unfold ColorBrain.generateParticleColors at hc
  simp only [List.mem_map, List.mem_range] at hc
  obtain ⟨i, hi, rfl⟩ := hc
  refine ⟨?_, ⟨le_max_left _ _, max_le (by norm_num) (min_le_left _ _)⟩,
    ⟨le_max_left _ _, max_le (by norm_num) (min_le_left _ _)⟩⟩
  apply jsMod_nonneg_lt _ (by norm_num)
  have hshift : (0 : ℚ) ≤ 360 / ((⌊3 + features.energy * 5⌋).toNat : ℚ) * (i : ℚ) := by
    positivity
  linarith

lemma jsMod_neg30 : jsMod (-30 : ℚ) 360 = -30 := by
  have hq : ((-30 : ℚ) / 360) < 0 := by norm_num
  have hf : (-((-30 : ℚ) / 360)).floor = 0 := by
    rw [ratFloor_eq, Int.floor_eq_iff]
    norm_num
  unfold jsMod jsTrunc
  rw [if_pos hq, hf]
  norm_num

/-- C2 (counterexample): two violations.  With full energy the mood
saturation is 100 and the accent color of the palette returned by
`generatePalette` carries saturation `100·1.2 = 120`, outside `[0,100]` —
the scaled channel is written into the color string without clamping.  And
with the reachable `featAltQ`/`ctxAltQ` (harmony `-1`, genre acoustic — the
exact feature/context pair `analyzeAudio` computes from `frameAlt`),
`createBasePalette`'s base hue is `30 + (-1)·60 = -30`, and since JS `%`
keeps the dividend's sign the primary (and glow) hue written into the color
string is `-30`, outside `[0,360)`. -/
theorem C2_counterexample :
    ((ColorBrain.generatePalette initialColorState featsEnergy ctxElectronic rngHalf
        rngHalf).1.accent.s = 120 ∧
      ¬ ((ColorBrain.generatePalette initialColorState featsEnergy ctxElectronic rngHalf
        rngHalf).1.accent.s ≤ 100)) ∧
    ((ColorBrain.createBasePalette featAltQ ctxAltQ
        (ColorBrain.analyzeMood featAltQ ctxAltQ) rngHalf).primary.h = -30 ∧
      ¬ (0 ≤ (ColorBrain.createBasePalette featAltQ ctxAltQ
        (ColorBrain.analyzeMood featAltQ ctxAltQ) rngHalf).primary.h)) := by
  have h : (ColorBrain.generatePalette initialColorState featsEnergy ctxElectronic rngHalf
      rngHalf).1.accent.s = 120 := by
    rw [generatePalette_fresh,
      refineForContext_noop rfl rfl (by norm_num [ctxElectronic]) (by norm_num [ctxElectronic]),
      createBase_accent_s, analyzeMood_saturation]
    norm_num [featsEnergy, min_def]
  have hhue : (ColorBrain.createBasePalette featAltQ ctxAltQ
      (ColorBrain.analyzeMood featAltQ ctxAltQ) rngHalf).primary.h = -30 := by
    rw [show (ColorBrain.createBasePalette featAltQ ctxAltQ
        (ColorBrain.analyzeMood featAltQ ctxAltQ) rngHalf).primary.h =
      jsMod (30 + featAltQ.harmony * 60) 360 from rfl]
    rw [show (30 : ℚ) + featAltQ.harmony * 60 = -30 from by norm_num [featAltQ]]
    exact jsMod_neg30
  exact ⟨⟨h, by rw [h]; norm_num⟩, ⟨hhue, by rw [hhue]; norm_num⟩⟩

/-- C2 (amended): in `createBasePalette`, for features with
`bass, mid, treble, dynamics, energy ∈ [0,1]`, **nonnegative**
`harmony ∈ [0,1]` and `emotionalIntensity ∈ [0,1]`, every hue — named colors
and particles — lies in `[0,360)`, and the primary saturation/lightness and
every particle saturation/lightness are inside their legal ranges (particle
lightness is clamped to `[10,90]`).  The nonnegative-harmony restriction is
necessary: with the reachable `harmony = -1` and genre acoustic the base hue
is `-30` and JS `%` keeps its sign (see the counterexample).  And even under
these hypotheses the scaled saturation/lightness channels of `secondary`,
`accent`, `background` and `glow` are emitted *unclamped*
(`accent = saturation·1.2`, `glow = saturation·1.5`, …), so they can leave
`[0,100]` as the counterexample also shows. -/
theorem C2_palette_ranges (features : QFeatures) (context : QContext) (rng : ℕ → ℚ)
    (mood : ColorMood) (p : ColorPalette)
    (hmood : mood = ColorBrain.analyzeMood features context)
    (hp : p = ColorBrain.createBasePalette features context mood rng)
    (hb : 0 ≤ features.bass ∧ features.bass ≤ 1)
    (hm : 0 ≤ features.mid ∧ features.mid ≤ 1)
    (ht : 0 ≤ features.treble ∧ features.treble ≤ 1)
    (hh : 0 ≤ features.harmony ∧ features.harmony ≤ 1)
    (hd : 0 ≤ features.dynamics ∧ features.dynamics ≤ 1)
    (he : 0 ≤ features.energy ∧ features.energy ≤ 1)
    (hei : 0 ≤ context.emotionalIntensity ∧ context.emotionalIntensity ≤ 1) :
    (40 ≤ mood.saturation ∧ mood.saturation ≤ 100) ∧
    (30 ≤ mood.brightness ∧ mood.brightness ≤ 100) ∧
    (0 ≤ p.primary.h ∧ p.primary.h < 360) ∧
    (0 ≤ p.secondary.h ∧ p.secondary.h < 360) ∧
    (0 ≤ p.accent.h ∧ p.accent.h < 360) ∧
    (0 ≤ p.background.h ∧ p.background.h < 360) ∧
    (0 ≤ p.glow.h ∧ p.glow.h < 360) ∧
    (0 ≤ p.primary.s ∧ p.primary.s ≤ 100) ∧ (0 ≤ p.primary.l ∧ p.primary.l ≤ 100) ∧
    (∀ c ∈ p.particles,
      (0 ≤ c.h ∧ c.h < 360) ∧ (0 ≤ c.s ∧ c.s ≤ 100) ∧ (10 ≤ c.l ∧ c.l ≤ 90)) ∧
    p.accent.s = mood.saturation * 1.2 ∧ p.accent.l = mood.brightness * 1.1 ∧
    p.glow.s = mood.saturation * 1.5 ∧ p.glow.l = mood.brightness * 1.3 ∧
    p.secondary.s = mood.saturation * 0.8 ∧ p.background.s = mood.saturation * 0.3 := by
  have hsat : 40 ≤ mood.saturation ∧ mood.saturation ≤ 100 := by
    rw [hmood, analyzeMood_saturation]
    constructor
    · refine le_min (by norm_num) ?_
      have h1 : 0 ≤ features.energy * 60 := mul_nonneg he.1 (by norm_num)
      have h2 : 0 ≤ features.dynamics * 30 := mul_nonneg hd.1 (by norm_num)
      linarith
    · exact min_le_left _ _
  have hbri : 30 ≤ mood.brightness ∧ mood.brightness ≤ 100 := by
    rw [hmood, analyzeMood_brightness]
    constructor
    · refine le_min (by norm_num) ?_
      have h1 : 0 ≤ features.treble * 40 := mul_nonneg ht.1 (by norm_num)
      have h2 : 0 ≤ context.emotionalIntensity * 30 := mul_nonneg hei.1 (by norm_num)
      linarith
    · exact min_le_left _ _
  have hbase : ∃ B : ℚ, 0 ≤ B ∧
      p = ColorBrain.createBasePalette features context mood rng ∧
      p.primary.h = jsMod B 360 ∧
      p.secondary.h = jsMod (jsMod B 360 + 120) 360 ∧
      p.accent.h = jsMod (jsMod B 360 + 240) 360 ∧
      p.background.h = jsMod (jsMod B 360 + 180) 360 ∧
      p.glow.h = jsMod B 360 ∧
      p.particles = ColorBrain.generateParticleColors (jsMod B 360) mood.saturation
        mood.brightness features rng := by
    rcases context with ⟨cbd, cvp, cid, cei, cg⟩
    cases cg
    case electronic =>
      refine ⟨240 + features.bass * 60, ?_, hp, ?_, ?_, ?_, ?_, ?_, ?_⟩ <;>
        first
          | (have hmn := mul_nonneg hb.1 (show (0:ℚ) ≤ 60 by norm_num); linarith)
          | (rw [hp]; rfl)
    case acoustic =>
      refine ⟨30 + features.harmony * 60, ?_, hp, ?_, ?_, ?_, ?_, ?_, ?_⟩ <;>
        first
          | (have hmn := mul_nonneg hh.1 (show (0:ℚ) ≤ 60 by norm_num); linarith)
          | (rw [hp]; rfl)
    case classical =>
      refine ⟨200 + features.harmony * 80, ?_, hp, ?_, ?_, ?_, ?_, ?_, ?_⟩ <;>
        first
          | (have hmn := mul_nonneg hh.1 (show (0:ℚ) ≤ 80 by norm_num); linarith)
          | (rw [hp]; rfl)
    case rock =>
      refine ⟨0 + features.energy * 60, ?_, hp, ?_, ?_, ?_, ?_, ?_, ?_⟩ <;>
        first
          | (have hmn := mul_nonneg he.1 (show (0:ℚ) ≤ 60 by norm_num); linarith)
          | (rw [hp]; rfl)
    case ambient =>
      refine ⟨180 + features.mid * 120, ?_, hp, ?_, ?_, ?_, ?_, ?_, ?_⟩ <;>
        first
          | (have hmn := mul_nonneg hm.1 (show (0:ℚ) ≤ 120 by norm_num); linarith)
          | (rw [hp]; rfl)
    case voice =>
      cases cvp
      case false =>
        refine ⟨200, by norm_num, hp, ?_, ?_, ?_, ?_, ?_, ?_⟩ <;> (rw [hp]; rfl)
      case true =>
        refine ⟨45 + cei * 90, ?_, hp, ?_, ?_, ?_, ?_, ?_, ?_⟩ <;>
          first
            | (have hcei : (0:ℚ) ≤ cei := hei.1
               have := mul_nonneg hcei (show (0:ℚ) ≤ 90 by norm_num); linarith)
            | (rw [hp]; rfl)
    case mixed =>
      refine ⟨features.bass * 120 + features.treble * 240, ?_, hp, ?_, ?_, ?_, ?_, ?_, ?_⟩ <;>
        first
          | (have h1 := mul_nonneg hb.1 (show (0:ℚ) ≤ 120 by norm_num)
             have h2 := mul_nonneg ht.1 (show (0:ℚ) ≤ 240 by norm_num); linarith)
          | (rw [hp]; rfl)
  obtain ⟨B, hB0, hpc, e1, e2, e3, e4, e5, e6⟩ := hbase
  refine ⟨hsat, hbri, ?_, ?_, ?_, ?_, ?_, ?_, ?_, ?_, ?_, ?_, ?_, ?_, ?_, ?_⟩
  · rw [e1]; exact hue_ok hB0
  · rw [e2]; exact hue_shift_ok hB0 (by norm_num)
  · rw [e3]; exact hue_shift_ok hB0 (by norm_num)
  · rw [e4]; exact hue_shift_ok hB0 (by norm_num)
  · rw [e5]; exact hue_ok hB0
  · rw [hpc, createBase_primary_s]; exact ⟨by linarith [hsat.1], hsat.2⟩
  · rw [hpc, createBase_primary_l]; exact ⟨by linarith [hbri.1], hbri.2⟩
  · rw [e6]; exact generateParticleColors_mem (hue_ok hB0).1
  · rw [hpc, createBase_accent_s]
  · rw [hpc, createBase_accent_l]
  · rw [hpc, createBase_glow_s]
  · rw [hpc, createBase_glow_l]
  · rw [hpc, createBase_secondary_s]
  · rw [hpc, createBase_background_s]

/-- C2 (witness): the amended theorem at the full-energy features and the
electronic context. -/
theorem C2_witness :
    ((0 ≤ featsEnergy.bass ∧ featsEnergy.bass ≤ 1) ∧
     (0 ≤ featsEnergy.energy ∧ featsEnergy.energy ≤ 1) ∧
     (0 ≤ ctxElectronic.emotionalIntensity ∧ ctxElectronic.emotionalIntensity ≤ 1)) ∧
    (40 ≤ (ColorBrain.analyzeMood featsEnergy ctxElectronic).saturation ∧
      (ColorBrain.analyzeMood featsEnergy ctxElectronic).saturation ≤ 100) ∧
    (∀ c ∈ (ColorBrain.createBasePalette featsEnergy ctxElectronic
        (ColorBrain.analyzeMood featsEnergy ctxElectronic) rngHalf).particles,
      (0 ≤ c.h ∧ c.h < 360) ∧ (0 ≤ c.s ∧ c.s ≤ 100) ∧ (10 ≤ c.l ∧ c.l ≤ 90)) := by
  have h := C2_palette_ranges featsEnergy ctxElectronic rngHalf
    (ColorBrain.analyzeMood featsEnergy ctxElectronic)
    (ColorBrain.createBasePalette featsEnergy ctxElectronic
      (ColorBrain.analyzeMood featsEnergy ctxElectronic) rngHalf)
    rfl rfl
    (by norm_num [featsEnergy]) (by norm_num [featsEnergy]) (by norm_num [featsEnergy])
    (by norm_num [featsEnergy]) (by norm_num [featsEnergy]) (by norm_num [featsEnergy])
    (by norm_num [ctxElectronic])
  exact ⟨⟨by norm_num [featsEnergy], by norm_num [featsEnergy], by norm_num [ctxElectronic]⟩,
    h.1, h.2.2.2.2.2.2.2.2.2.1⟩

/-! ## C6: the particle count -/

lemma generateParticleColors_length (baseHue saturation lightness : ℚ)
    (features : QFeatures) (rng : ℕ → ℚ) :
    (ColorBrain.generateParticleColors baseHue saturation lightness features rng).length =
      (⌊3 + features.energy * 5⌋).toNat := by
  simp [ColorBrain.generateParticleColors]

lemma createBase_particles_length (f : QFeatures) (c : QContext) (m : ColorMood)
    (rng : ℕ → ℚ) :
    (ColorBrain.createBasePalette f c m rng).particles.length =
      (⌊3 + f.energy * 5⌋).toNat := by
  show (ColorBrain.generateParticleColors _ _ _ f rng).length = _
  exact generateParticleColors_length _ _ _ f rng

lemma addComplexity_length (particles : List HSL) (rng : ℕ → ℚ) :
    (ColorBrain.addComplexity particles rng).length =
      particles.length + min 5 (particles.length / 2) := by
  simp [ColorBrain.addComplexity]

lemma smoothTransition_particles_length (speed : ℚ) (hist : List ColorPalette)
    (q : ColorPalette) :
    (ColorBrain.smoothTransition speed hist q).particles.length = q.particles.length := by
  unfold ColorBrain.smoothTransition
  cases h : hist.getLast?
  · rfl
  · simp

lemma refineForContext_particles_length (p : ColorPalette) (context : QContext)
    (rng : ℕ → ℚ) :
    (ColorBrain.refineForContext p context rng).particles.length =
      p.particles.length +
        (if context.instrumentalDensity > 0.7 then min 5 (p.particles.length / 2) else 0) := by
  unfold ColorBrain.refineForContext
  split_ifs <;>
    simp [ColorBrain.intensifyPalette, ColorBrain.addWarmth, ColorBrain.addComplexity,
      ColorBrain.adjustSaturation]

lemma generatePalette_particles_length (st : ColorBrainState) (features : QFeatures)
    (context : QContext) (rngP rngC : ℕ → ℚ) :
    (ColorBrain.generatePalette st features context rngP rngC).1.particles.length =
      (⌊3 + features.energy * 5⌋).toNat +
        (if context.instrumentalDensity > 0.7 then
          min 5 ((⌊3 + features.energy * 5⌋).toNat / 2) else 0) := by
  show (ColorBrain.smoothTransition _ _ _).particles.length = _
  rw [smoothTransition_particles_length, refineForContext_particles_length,
    createBase_particles_length]

/-- C6 (counterexample): with full energy (8 base particle colors) and
`instrumentalDensity = 0.8`, the palette returned by `generatePalette`
carries `8 + min(5, 4) = 12` particle colors — outside the claimed `[3,8]`. -/
theorem C6_counterexample :
    (ColorBrain.generatePalette initialColorState featsEnergy ctxDense rngHalf
        rngHalf).1.particles.length = 12 ∧
    ¬ ((ColorBrain.generatePalette initialColorState featsEnergy ctxDense rngHalf
        rngHalf).1.particles.length ≤ 8) := by
  have hfl : ⌊(3 : ℚ) + featsEnergy.energy * 5⌋ = 8 := by
    rw [Int.floor_eq_iff]
    norm_num [featsEnergy]
  have h : (ColorBrain.generatePalette initialColorState featsEnergy ctxDense rngHalf
      rngHalf).1.particles.length = 12 := by
    rw [generatePalette_particles_length, hfl, if_pos (by norm_num [ctxDense])]
    decide
  refine ⟨h, by rw [h]; norm_num⟩

/-- C6 (amended): the particle-color count of the returned palette is
computed from the current energy alone — `n = ⌊3 + energy·5⌋ ∈ [3,8]`,
independent of the brain state and in particular of any previous palette's
count — but on ticks where `instrumentalDensity > 0.7` the refinement
*appends* `min(5, ⌊n/2⌋)` extra colors, so the returned length is
`n + min(5, ⌊n/2⌋) ∈ [3,12]`, not `[3,8]`. -/
theorem C6_particle_count (st : ColorBrainState) (features : QFeatures) (context : QContext)
    (rngP rngC : ℕ → ℚ) (n : ℕ) (hn : n = (⌊3 + features.energy * 5⌋).toNat)
    (he : 0 ≤ features.energy ∧ features.energy ≤ 1) :
    (ColorBrain.generatePalette st features context rngP rngC).1.particles.length =
      n + (if context.instrumentalDensity > 0.7 then min 5 (n / 2) else 0) ∧
    3 ≤ n ∧ n ≤ 8 ∧
    3 ≤ (ColorBrain.generatePalette st features context rngP rngC).1.particles.length ∧
    (ColorBrain.generatePalette st features context rngP rngC).1.particles.length ≤ 12 := by
  have hfl3 : (3 : ℤ) ≤ ⌊3 + features.energy * 5⌋ := by
    apply Int.le_floor.mpr
    push_cast
    nlinarith [he.1]
  have hfl8 : ⌊3 + features.energy * 5⌋ ≤ 8 := by
    have h8 : (3 : ℚ) + features.energy * 5 ≤ ((8 : ℤ) : ℚ) := by push_cast; nlinarith [he.2]
    calc ⌊3 + features.energy * 5⌋ ≤ ⌊((8 : ℤ) : ℚ)⌋ := Int.floor_le_floor h8
    _ = 8 := Int.floor_intCast 8
  have hn3 : 3 ≤ n ∧ n ≤ 8 := by omega
  have hlen := generatePalette_particles_length st features context rngP rngC
  rw [← hn] at hlen
  refine ⟨hlen, hn3.1, hn3.2, ?_, ?_⟩
  · rw [hlen]; omega
  · rw [hlen]
    split_ifs <;> omega

/-- C6 (witness): the amended theorem at full energy and high instrumental
density (count 8, returned length 12). -/
theorem C6_witness :
    (8 = (⌊(3 : ℚ) + featsEnergy.energy * 5⌋).toNat ∧
      (0 ≤ featsEnergy.energy ∧ featsEnergy.energy ≤ 1)) ∧
    (ColorBrain.generatePalette initialColorState featsEnergy ctxDense rngHalf
        rngHalf).1.particles.length =
      8 + (if ctxDense.instrumentalDensity > 0.7 then min 5 (8 / 2) else 0) ∧
    3 ≤ (8 : ℕ) ∧ (8 : ℕ) ≤ 8 ∧
    3 ≤ (ColorBrain.generatePalette initialColorState featsEnergy ctxDense rngHalf
        rngHalf).1.particles.length ∧
    (ColorBrain.generatePalette initialColorState featsEnergy ctxDense rngHalf
        rngHalf).1.particles.length ≤ 12 := by
  have h8 : (8 : ℕ) = (⌊(3 : ℚ) + featsEnergy.energy * 5⌋).toNat := by
    rw [show ⌊(3 : ℚ) + featsEnergy.energy * 5⌋ = 8 from by
      rw [Int.floor_eq_iff]; norm_num [featsEnergy]]
    rfl
  have hhe : 0 ≤ featsEnergy.energy ∧ featsEnergy.energy ≤ 1 := by norm_num [featsEnergy]
  obtain ⟨h1, h2, h3, h4, h5⟩ :=
    C6_particle_count initialColorState featsEnergy ctxDense rngHalf rngHalf 8 h8 hhe
  exact ⟨⟨h8, hhe⟩, h1, h2, h3, h4, h5⟩

/-! ## C10: the parseHSL integer gate -/

lemma parseHSL_not_integral {c : HSL}
    (h : c.h.den ≠ 1 ∨ c.h < 0 ∨ c.s.den ≠ 1 ∨ c.s < 0 ∨ c.l.den ≠ 1 ∨ c.l < 0) :
    ColorBrain.parseHSL c = ⟨0, 0, 0⟩ := by
  unfold ColorBrain.parseHSL ColorBrain.isDigitToken
  rcases h with h | h | h | h | h | h
  · simp [h]
  · simp [show ¬ (0 ≤ c.h.num) from by rwa [Rat.num_nonneg, not_le]]
  · simp [h]
  · simp [show ¬ (0 ≤ c.s.num) from by rwa [Rat.num_nonneg, not_le]]
  · simp [h]
  · simp [show ¬ (0 ≤ c.l.num) from by rwa [Rat.num_nonneg, not_le]]

lemma parseHSL_zero : ColorBrain.parseHSL ⟨0, 0, 0⟩ = ⟨0, 0, 0⟩ :=
  parseHSL_integral (integralColor_of 0 0 0 (by norm_num) (by norm_num) (by norm_num)
    (by norm_num) (by norm_num) (by norm_num) (by norm_num))

/-- The accent color generated from `featsSmallEnergy`: saturation
`41·1.2 = 49.2` is fractional. -/
lemma genSmallEnergy_accent :
    (ColorBrain.generatePalette initialColorState featsSmallEnergy ctxElectronic rngHalf
        rngHalf).1.accent = ⟨120, 246/5, 33⟩ := by
  have m240 : jsMod 240 360 = 240 := by
    rw [jsMod_eval 0 (by norm_num) (by norm_num) (by norm_num) (by norm_num)]; norm_num
  have m480 : jsMod 480 360 = 120 := by
    rw [jsMod_eval 1 (by norm_num) (by norm_num) (by norm_num) (by norm_num)]; norm_num
  have hP2 : (ColorBrain.generatePalette initialColorState featsSmallEnergy ctxElectronic
      rngHalf rngHalf).1 =
      ColorBrain.createBasePalette featsSmallEnergy ctxElectronic
        (ColorBrain.analyzeMood featsSmallEnergy ctxElectronic) rngHalf := by
    rw [generatePalette_fresh]
    exact refineForContext_noop rfl rfl (by norm_num [ctxElectronic]) (by norm_num [ctxElectronic])
  rw [hP2]
  have hh : (ColorBrain.createBasePalette featsSmallEnergy ctxElectronic
      (ColorBrain.analyzeMood featsSmallEnergy ctxElectronic) rngHalf).accent.h = 120 := by
    rw [createBase_accent_h_electronic]
    norm_num [featsSmallEnergy, m240, m480]
  have hs : (ColorBrain.createBasePalette featsSmallEnergy ctxElectronic
      (ColorBrain.analyzeMood featsSmallEnergy ctxElectronic) rngHalf).accent.s = 246/5 := by
    rw [createBase_accent_s, analyzeMood_saturation]
    norm_num [featsSmallEnergy, min_def]
  have hl : (ColorBrain.createBasePalette featsSmallEnergy ctxElectronic
      (ColorBrain.analyzeMood featsSmallEnergy ctxElectronic) rngHalf).accent.l = 33 := by
    rw [createBase_accent_l, analyzeMood_brightness]
    norm_num [featsSmallEnergy, ctxElectronic, min_def]
  calc (ColorBrain.createBasePalette featsSmallEnergy ctxElectronic
      (ColorBrain.analyzeMood featsSmallEnergy ctxElectronic) rngHalf).accent =
      ⟨(ColorBrain.createBasePalette featsSmallEnergy ctxElectronic
          (ColorBrain.analyzeMood featsSmallEnergy ctxElectronic) rngHalf).accent.h,
        (ColorBrain.createBasePalette featsSmallEnergy ctxElectronic
          (ColorBrain.analyzeMood featsSmallEnergy ctxElectronic) rngHalf).accent.s,
        (ColorBrain.createBasePalette featsSmallEnergy ctxElectronic
          (ColorBrain.analyzeMood featsSmallEnergy ctxElectronic) rngHalf).accent.l⟩ := rfl
  _ = ⟨120, 246/5, 33⟩ := by rw [hh, hs, hl]

/-- C10: `parseHSL` accepts exactly the triples whose three channels are
nonnegative integers (the only strings the `(\d+)` regex groups match); any
color with a fractional or negative channel is read as `{h:0, s:0, l:0}`,
and the refinement/smoothing steps then operate on that zero triple instead
of the color's actual channels.  `generatePalette` itself produces such
colors: the accent generated from `featsSmallEnergy` has saturation 49.2,
and blending it with itself yields the zero color. -/
theorem C10_parseHSL_integer_gate :
    (∀ c : HSL,
      (c.h.den ≠ 1 ∨ c.h < 0 ∨ c.s.den ≠ 1 ∨ c.s < 0 ∨ c.l.den ≠ 1 ∨ c.l < 0) →
      ColorBrain.parseHSL c = ⟨0, 0, 0⟩ ∧
        ∀ speed c2, ColorBrain.blend speed c c2 = ColorBrain.blend speed ⟨0, 0, 0⟩ c2) ∧
    (ColorBrain.generatePalette initialColorState featsSmallEnergy ctxElectronic rngHalf
        rngHalf).1.accent = ⟨120, 246/5, 33⟩ ∧
    ((246 : ℚ)/5).den ≠ 1 ∧
    ColorBrain.blend (1/10) (⟨120, 246/5, 33⟩ : HSL) (⟨120, 246/5, 33⟩ : HSL) = ⟨0, 0, 0⟩ := by
  have m360 : jsMod 360 360 = 0 := by
    rw [jsMod_eval 1 (by norm_num) (by norm_num) (by norm_num) (by norm_num)]; norm_num
  have m180 : jsMod 180 360 = 180 := by
    rw [jsMod_eval 0 (by norm_num) (by norm_num) (by norm_num) (by norm_num)]; norm_num
  refine ⟨?_, genSmallEnergy_accent, den_246_5, ?_⟩
  · intro c hc
    have hzero := parseHSL_not_integral hc
    refine ⟨hzero, fun speed c2 => ?_⟩
    unfold ColorBrain.blend
    rw [hzero, parseHSL_zero]
  · have hfrac : ColorBrain.parseHSL (⟨120, 246/5, 33⟩ : HSL) = ⟨0, 0, 0⟩ :=
      parseHSL_not_integral (Or.inr (Or.inr (Or.inl den_246_5)))
    unfold ColorBrain.blend
    rw [hfrac]
    unfold ColorBrain.interpolateHue
    dsimp only
    have e1 : (0 : ℚ) - 0 + 180 = 180 := by norm_num
    rw [e1, m180]
    have e2 : (0 : ℚ) + (180 - 180) * (1/10) + 360 = 360 := by norm_num
    rw [e2, m360]
    norm_num

/-- C10 (witness): the gate applied to the generated accent color, whose
saturation channel 49.2 is fractional. -/
theorem C10_witness :
    ((⟨120, 246/5, 33⟩ : HSL).h.den ≠ 1 ∨ (⟨120, 246/5, 33⟩ : HSL).h < 0 ∨
      (⟨120, 246/5, 33⟩ : HSL).s.den ≠ 1 ∨ (⟨120, 246/5, 33⟩ : HSL).s < 0 ∨
      (⟨120, 246/5, 33⟩ : HSL).l.den ≠ 1 ∨ (⟨120, 246/5, 33⟩ : HSL).l < 0) ∧
    ColorBrain.parseHSL ⟨120, 246/5, 33⟩ = ⟨0, 0, 0⟩ := by
  have hd : (⟨120, 246/5, 33⟩ : HSL).h.den ≠ 1 ∨ (⟨120, 246/5, 33⟩ : HSL).h < 0 ∨
      (⟨120, 246/5, 33⟩ : HSL).s.den ≠ 1 ∨ (⟨120, 246/5, 33⟩ : HSL).s < 0 ∨
      (⟨120, 246/5, 33⟩ : HSL).l.den ≠ 1 ∨ (⟨120, 246/5, 33⟩ : HSL).l < 0 :=
    Or.inr (Or.inr (Or.inl den_246_5))
  exact ⟨hd, (C10_parseHSL_integer_gate.1 _ hd).1⟩

/-! ## C9: the neural connection rule -/

/-- C9 (counterexample): two nodes 10px apart, one at full intensity and one
at zero intensity, are connected — the source condition is a disjunction
(`nodes[i].intensity > 0.3 || nodes[j].intensity > 0.3`), so a line is drawn
although one endpoint's intensity is ≤ 0.3. -/
theorem C9_counterexample :
    Neural.drawConnections [nodeHot, nodeCold] = [(nodeHot, nodeCold)] ∧
      ¬ (nodeCold.intensity > 0.3) := by
  constructor
  · have hcond : Real.sqrt ((nodeHot.x - nodeCold.x) ^ 2 + (nodeHot.y - nodeCold.y) ^ 2) < 150 ∧
        (nodeHot.intensity > 0.3 ∨ nodeCold.intensity > 0.3) := by
      constructor
      · have e1 : (nodeHot.x - nodeCold.x) ^ 2 + (nodeHot.y - nodeCold.y) ^ 2 = 100 := by
          norm_num [nodeHot, nodeCold]
        rw [e1, show (100 : ℝ) = 10 ^ 2 from by norm_num,
          Real.sqrt_sq (by norm_num : (0:ℝ) ≤ 10)]
        norm_num
      · exact Or.inl (by norm_num [nodeHot])
    unfold Neural.drawConnections
    rw [show List.range ([nodeHot, nodeCold].length) = [0, 1] from rfl]
    simp only [List.flatMap_cons, List.flatMap_nil, List.append_nil]
    rw [show List.range' (0 + 1) ([nodeHot, nodeCold].length - (0 + 1)) = [1] from rfl,
      show List.range' (1 + 1) ([nodeHot, nodeCold].length - (1 + 1)) = [] from rfl]
    simp only [List.filterMap_cons, List.filterMap_nil, List.getD_cons_zero,
      List.getD_cons_succ]
    rw [if_pos hcond]
    rfl
  · norm_num [nodeCold]

/-- C9 (amended): in the neural mode, for `i < j < nodeCount` a connecting
line between nodes `i` and `j` is emitted exactly when their euclidean
distance is below 150 **and at least one** endpoint's intensity exceeds 0.3
(the source `||`), not when both do. -/
theorem C9_connection_rule (nodes : List Neural.NNode) (p : Neural.NNode × Neural.NNode) :
    p ∈ Neural.drawConnections nodes ↔
      ∃ i j, i < j ∧ j < nodes.length ∧
        p = (nodes.getD i ⟨0, 0, 0⟩, nodes.getD j ⟨0, 0, 0⟩) ∧
        Real.sqrt (((nodes.getD i ⟨0, 0, 0⟩).x - (nodes.getD j ⟨0, 0, 0⟩).x) ^ 2 +
            ((nodes.getD i ⟨0, 0, 0⟩).y - (nodes.getD j ⟨0, 0, 0⟩).y) ^ 2) < 150 ∧
        ((nodes.getD i ⟨0, 0, 0⟩).intensity > 0.3 ∨
          (nodes.getD j ⟨0, 0, 0⟩).intensity > 0.3) := by
  unfold Neural.drawConnections
  simp only [List.mem_flatMap, List.mem_filterMap, List.mem_range, List.mem_range']
  constructor
  · rintro ⟨i, hi, j, ⟨k, hk, rfl⟩, hj⟩
    split_ifs at hj with hcond
    rw [Option.some.injEq] at hj
    exact ⟨i, i + 1 + 1 * k, by omega, by omega, hj.symm, hcond.1, hcond.2⟩
  · rintro ⟨i, j, hij, hjlen, hp, hdist, hint⟩
    refine ⟨i, by omega, j, ⟨j - (i + 1), by omega, by omega⟩, ?_⟩
    rw [if_pos ⟨hdist, hint⟩, hp]

/-! ## Bounds for the feature extractor -/

lemma range_sum_getD_eq : ∀ (a b : List ℝ), a.length = b.length → ∀ f : ℝ → ℝ → ℝ,
    (∑ i ∈ Finset.range a.length, f (a.getD i 0) (b.getD i 0)) =
      ((a.zip b).map fun p => f p.1 p.2).sum := by
  intro a
  induction a with
  | nil => intro b h f; simp
  | cons x xs ih =>
    intro b h f
    cases b with
    | nil => simp at h
    | cons y ys =>
      rw [List.length_cons, Finset.sum_range_succ']
      simp only [List.getD_cons_succ, List.getD_cons_zero]
      rw [ih ys (by simpa using h) f]
      simp [add_comm]

lemma calculateCorrelation_bounds {arr1 arr2 : List ℝ} (hne : arr1 ≠ []) :
    ∃ c, MusicBrain.calculateCorrelation arr1 arr2 = some c ∧ -1 ≤ c ∧ c ≤ 1 := by
  by_cases hlen : arr1.length ≠ arr2.length
  · refine ⟨0, ?_, by norm_num, by norm_num⟩
    unfold MusicBrain.calculateCorrelation
    rw [if_pos hlen]
  · push_neg at hlen
    have hne2 : arr2 ≠ [] := by
      intro h
      rw [h, List.length_nil, List.length_eq_zero] at hlen
      exact hne hlen
    simp only [MusicBrain.calculateCorrelation,
      if_neg (show ¬ arr1.length ≠ arr2.length from by omega),
      mean?_eq_some hne, mean?_eq_some hne2, Option.bind_eq_bind, Option.some_bind,
      Option.pure_def]
    refine ⟨_, rfl, ?_, ?_⟩
    all_goals
      set m1 := arr1.sum / (arr1.length : ℝ) with hm1
      set m2 := arr2.sum / (arr2.length : ℝ) with hm2
      set num := ∑ i ∈ Finset.range arr1.length,
        (arr1.getD i 0 - m1) * (arr2.getD i 0 - m2) with hnum
      set d1 := ∑ i ∈ Finset.range arr1.length,
        (arr1.getD i 0 - m1) * (arr1.getD i 0 - m1) with hd1
      set d2 := ∑ i ∈ Finset.range arr1.length,
        (arr2.getD i 0 - m2) * (arr2.getD i 0 - m2) with hd2
      have hq1 : 0 ≤ d1 := Finset.sum_nonneg fun i _ => mul_self_nonneg _
      have hq2 : 0 ≤ d2 := Finset.sum_nonneg fun i _ => mul_self_nonneg _
      have hden0 : 0 ≤ Real.sqrt (d1 * d2) := Real.sqrt_nonneg _
      by_cases hd : Real.sqrt (d1 * d2) = 0
      · rw [if_pos hd]; norm_num
      · rw [if_neg hd]
        have hdenpos : 0 < Real.sqrt (d1 * d2) := lt_of_le_of_ne hden0 (Ne.symm hd)
        have hcs : num * num ≤ d1 * d2 := by
          have h0 := Finset.sum_mul_sq_le_sq_mul_sq (Finset.range arr1.length)
            (fun i => arr1.getD i 0 - m1) (fun i => arr2.getD i 0 - m2)
          simpa only [pow_two] using h0
        have habs : |num| ≤ Real.sqrt (d1 * d2) := by
          rw [← Real.sqrt_mul_self_eq_abs]
          exact Real.sqrt_le_sqrt hcs
        obtain ⟨hle1, hle2⟩ := abs_le.mp habs
        first
          | (rw [le_div_iff₀ hdenpos]; linarith)
          | (rw [div_le_one hdenpos]; linarith)

lemma mapM_option_bounds {l : List ℕ} {f : ℕ → Option ℝ} {a b : ℝ}
    (h : ∀ i ∈ l, ∃ c, f i = some c ∧ a ≤ c ∧ c ≤ b) :
    ∃ cs, l.mapM f = some cs ∧ cs.length = l.length ∧ ∀ c ∈ cs, a ≤ c ∧ c ≤ b := by
  induction l with
  | nil => exact ⟨[], rfl, rfl, by simp⟩
  | cons x xs ih =>
    obtain ⟨c, hc, hab⟩ := h x (by simp)
    obtain ⟨cs, hcs, hl, hbd⟩ := ih fun y hy => h y (by simp [hy])
    refine ⟨c :: cs, ?_, by simp [hl], ?_⟩
    · simp only [List.mapM_cons, hc, hcs, Option.bind_eq_bind, Option.some_bind,
        Option.pure_def, Option.map_some]
    · intro d hd
      rcases List.mem_cons.mp hd with h | h
      · subst h; exact hab
      · exact hbd d h

lemma jsSlice_length {frame : List ℝ} {a b : ℕ} (hb : b ≤ frame.length) (hab : a ≤ b) :
    (jsSlice frame a b).length = b - a := by
  simp [jsSlice, List.length_drop, List.length_take]
  omega

lemma jsSlice_ne_nil {frame : List ℝ} {a b : ℕ} (hb : b ≤ frame.length) (hab : a < b) :
    jsSlice frame a b ≠ [] := by
  have h := jsSlice_length hb hab.le
  intro hnil
  rw [hnil] at h
  simp at h
  omega

lemma jsSlice_subset {frame : List ℝ} {a b : ℕ} :
    ∀ x ∈ jsSlice frame a b, x ∈ frame := by
  intro x hx
  exact List.mem_of_mem_take (List.mem_of_mem_drop hx)

lemma extractBass_bounds {frame : List ℝ} (hlen : frame.length = 128)
    (hin : ∀ x ∈ frame, 0 ≤ x ∧ x ≤ 1) :
    ∃ v, MusicBrain.extractBass frame = some v ∧ 0 ≤ v ∧ v ≤ 1 :=
  mean?_bounds (jsSlice_ne_nil (by omega) (by omega))
    fun x hx => hin x (jsSlice_subset x hx)

lemma extractMid_bounds {frame : List ℝ} (hlen : frame.length = 128)
    (hin : ∀ x ∈ frame, 0 ≤ x ∧ x ≤ 1) :
    ∃ v, MusicBrain.extractMid frame = some v ∧ 0 ≤ v ∧ v ≤ 1 :=
  mean?_bounds (jsSlice_ne_nil (by omega) (by omega))
    fun x hx => hin x (jsSlice_subset x hx)

lemma extractTreble_bounds {frame : List ℝ} (hlen : frame.length = 128)
    (hin : ∀ x ∈ frame, 0 ≤ x ∧ x ≤ 1) :
    ∃ v, MusicBrain.extractTreble frame = some v ∧ 0 ≤ v ∧ v ≤ 1 := by
  apply mean?_bounds
  · intro hnil
    have := congrArg List.length hnil
    simp [List.length_drop, hlen] at this
  · exact fun x hx => hin x (List.mem_of_mem_drop hx)

lemma analyzeRhythm_bounds (st : MusicBrainState) {bass mid : ℝ}
    (hb : 0 ≤ bass ∧ bass ≤ 1) (hm : 0 ≤ mid ∧ mid ≤ 1) :
    ∃ r, MusicBrain.analyzeRhythm st bass mid = some r ∧ 0 ≤ r ∧ r ≤ 9/5 := by
  have hs0 : 0 ≤ max (bass * 1.2) (mid * 0.8) :=
    le_max_of_le_left (by nlinarith [hb.1])
  have hs1 : max (bass * 1.2) (mid * 0.8) ≤ 6/5 :=
    max_le (by nlinarith [hb.2]) (by nlinarith [hm.2])
  by_cases h : st.beatHistory.length > 4
  · obtain ⟨c, hc, hc0, hc1⟩ :=
      calculateConsistency_some (st.beatHistory.drop (st.beatHistory.length - 4))
    refine ⟨max (bass * 1.2) (mid * 0.8) * (1 + c * 0.5), ?_, by nlinarith, by nlinarith⟩
    simp only [MusicBrain.analyzeRhythm]
    rw [if_pos h]
    simp only [hc, Option.bind_eq_bind, Option.some_bind, Option.pure_def]
  · refine ⟨max (bass * 1.2) (mid * 0.8), ?_, hs0, by linarith⟩
    simp only [MusicBrain.analyzeRhythm]
    rw [if_neg h]
    rfl

lemma analyzeHarmony_bounds {frame : List ℝ} (hlen : frame.length = 128) :
    ∃ h, MusicBrain.analyzeHarmony frame = some h ∧ -1 ≤ h ∧ h ≤ 1 := by
  have hcorr : ∀ i ∈ List.range 7, ∃ c,
      MusicBrain.calculateCorrelation
        (jsSlice frame (i * (frame.length / 8)) ((i + 1) * (frame.length / 8)))
        (jsSlice frame ((i + 1) * (frame.length / 8)) ((i + 2) * (frame.length / 8))) =
        some c ∧ -1 ≤ c ∧ c ≤ 1 := by
    intro i hi
    rw [List.mem_range] at hi
    apply calculateCorrelation_bounds
    apply jsSlice_ne_nil
    · rw [hlen]
      show (i + 1) * 16 ≤ 128
      omega
    · rw [hlen]
      show i * 16 < (i + 1) * 16
      omega
  obtain ⟨cs, hcs, hl7, hbd⟩ := mapM_option_bounds hcorr
  refine ⟨cs.sum / ((8 : ℝ) - 1), ?_, ?_, ?_⟩
  · unfold MusicBrain.analyzeHarmony
    simp only [hcs, Option.bind_eq_bind, Option.some_bind, Option.pure_def]
    norm_num
  · have hlow : ((cs.length : ℝ)) * (-1) ≤ cs.sum := mul_length_le_sum fun x hx => (hbd x hx).1
    rw [hl7, List.length_range] at hlow
    rw [le_div_iff₀ (by norm_num : (0:ℝ) < 8 - 1)]
    push_cast at hlow
    linarith
  · have hup : cs.sum ≤ ((cs.length : ℝ)) * 1 := sum_le_mul_length fun x hx => (hbd x hx).2
    rw [hl7, List.length_range] at hup
    rw [div_le_one (by norm_num : (0:ℝ) < 8 - 1)]
    push_cast at hup
    linarith

lemma analyzeDynamics_bounds {frame : List ℝ} (hne : frame ≠ []) :
    ∃ d, MusicBrain.analyzeDynamics frame = some d ∧ 0 ≤ d ∧ d ≤ 1 := by
  have hne2 : frame.map (fun val => (val - frame.sum / (frame.length : ℝ)) ^ 2) ≠ [] := by
    simpa using hne
  simp only [MusicBrain.analyzeDynamics, mean?_eq_some hne, Option.bind_eq_bind,
    Option.some_bind, mean?_eq_some hne2, Option.pure_def]
  exact ⟨_, rfl, le_min (by norm_num) (by positivity), min_le_left _ _⟩

lemma calculateEnergy_bounds {frame : List ℝ} (hne : frame ≠ []) :
    ∃ e, MusicBrain.calculateEnergy frame = some e ∧ 0 ≤ e ∧ e ≤ 1 := by
  have hne2 : frame.map (fun val => val * val) ≠ [] := by simpa using hne
  simp only [MusicBrain.calculateEnergy, mean?_eq_some hne2, Option.bind_eq_bind,
    Option.some_bind, Option.pure_def]
  exact ⟨_, rfl, le_min (by norm_num) (by positivity), min_le_left _ _⟩

lemma estimateTempo_bounds (st : MusicBrainState) (r : ℝ)
    (hhist : ∀ y ∈ st.beatHistory, 0 ≤ y ∧ y ≤ 9/5) :
    ∃ t, MusicBrain.estimateTempo st r = some t ∧ 60 ≤ t ∧ t ≤ 276 := by
  by_cases h : st.beatHistory.length < 8
  · refine ⟨120, ?_, by norm_num, by norm_num⟩
    unfold MusicBrain.estimateTempo
    rw [if_pos h]
  · have hne : st.beatHistory.drop (st.beatHistory.length - 8) ≠ [] := by
      intro hnil
      have := congrArg List.length hnil
      simp [List.length_drop] at this
      omega
    obtain ⟨m, hm, hm0, hm18⟩ :=
      mean?_bounds hne fun x hx => hhist x (List.mem_of_mem_drop hx)
    refine ⟨60 + m * 120, ?_, by nlinarith, by nlinarith⟩
    unfold MusicBrain.estimateTempo
    rw [if_neg h]
    simp only [hm, Option.bind_eq_bind, Option.some_bind, Option.pure_def]

lemma detectVocalPresence_some {frame : List ℝ} (hlen : frame.length = 128) :
    ∃ b, MusicBrain.detectVocalPresence frame = some b := by
  obtain ⟨v1, hv1⟩ : ∃ v, mean? (jsSlice frame 8 24) = some v :=
    ⟨_, mean?_eq_some (jsSlice_ne_nil (by omega) (by omega))⟩
  obtain ⟨v2, hv2⟩ : ∃ v, mean? (jsSlice frame 80 120) = some v :=
    ⟨_, mean?_eq_some (jsSlice_ne_nil (by omega) (by omega))⟩
  simp only [MusicBrain.detectVocalPresence, hv1, hv2, Option.bind_eq_bind,
    Option.some_bind, Option.pure_def]
  exact ⟨_, rfl⟩

lemma calculateInstrumentalDensity_some {frame : List ℝ} (hlen : frame.length = 128) :
    ∃ d, MusicBrain.calculateInstrumentalDensity frame = some d := by
  simp only [MusicBrain.calculateInstrumentalDensity, jsDiv,
    if_neg (show ¬ ((frame.length : ℝ) = 0) from by rw [hlen]; norm_num)]
  exact ⟨_, rfl⟩

/-- Master evaluation: `analyzeAudio` as the composite of its components'
values. -/
lemma analyzeAudio_eval {st st' : MusicBrainState} {frame : List ℝ} {F : AudioFeatures}
    {bass mid treble rhythm harmony dynamics energy tempo : ℝ} {vocal : Bool} {density : ℝ}
    (hst : st' = { st with time := st.time + 1 })
    (h1 : MusicBrain.extractBass frame = some bass)
    (h2 : MusicBrain.extractMid frame = some mid)
    (h3 : MusicBrain.extractTreble frame = some treble)
    (h4 : MusicBrain.analyzeRhythm st' bass mid = some rhythm)
    (h5 : MusicBrain.analyzeHarmony frame = some harmony)
    (h6 : MusicBrain.analyzeDynamics frame = some dynamics)
    (h7 : MusicBrain.calculateEnergy frame = some energy)
    (h8 : MusicBrain.estimateTempo st' rhythm = some tempo)
    (h9 : MusicBrain.detectVocalPresence frame = some vocal)
    (h10 : MusicBrain.calculateInstrumentalDensity frame = some density)
    (hF : F = ⟨bass, mid, treble, rhythm, MusicBrain.analyzeMelody st' mid treble,
      harmony, dynamics, energy, tempo, MusicBrain.determineMood energy harmony dynamics⟩) :
    MusicBrain.analyzeAudio st frame = some (F,
      ⟨MusicBrain.detectBeatDrop st' F, vocal, density, (energy + dynamics + harmony) / 3,
        MusicBrain.detectGenre F⟩,
      MusicBrain.updateHistory { st' with previousFeatures := some F } rhythm energy) := by
  subst hst
  subst hF
  simp only [MusicBrain.analyzeAudio, MusicBrain.analyzeContext, h1, h2, h3, h4, h5, h6,
    h7, h8, h9, h10, Option.bind_eq_bind, Option.some_bind, Option.pure_def]

lemma updateHistory_mem {st : MusicBrainState} {r e : ℝ} {P : ℝ → Prop}
    (hh : ∀ y ∈ st.beatHistory, P y) (hr : P r) :
    ∀ y ∈ (MusicBrain.updateHistory st r e).beatHistory, P y := by
  intro y hy
  unfold MusicBrain.updateHistory at hy
  simp only at hy
  split_ifs at hy with hc
  · rcases List.mem_append.mp (List.mem_of_mem_drop hy) with h | h
    · exact hh y h
    · rw [List.mem_singleton] at h; subst h; exact hr
  · rcases List.mem_append.mp hy with h | h
    · exact hh y h
    · rw [List.mem_singleton] at h; subst h; exact hr

/-! ## C1 (amended): the feature ranges the extractor really guarantees -/

/-- C1 (amended): for every 128-sample frame with samples in `[0,1]` and
every state whose beat history lies in the invariant range `[0, 1.8]` (the
range of the unclamped rhythm), `analyzeAudio` succeeds and returns
`bass, mid, treble, dynamics, energy ∈ [0,1]`, `harmony ∈ [-1,1]` (it **can**
be negative), `tempo ∈ [60,276]` (it **can** exceed 180, since the averaged
beat-history entries are unclamped rhythms up to 1.8), `rhythm ∈ [0,1.8]`,
a mood among the 5 declared values, and a new state whose beat history again
lies in `[0,1.8]`. -/
theorem C1_feature_ranges (st : MusicBrainState) (frame : List ℝ)
    (hlen : frame.length = 128)
    (hin : ∀ x ∈ frame, 0 ≤ x ∧ x ≤ 1)
    (hhist : ∀ y ∈ st.beatHistory, 0 ≤ y ∧ y ≤ 9/5) :
    ∃ f c st', MusicBrain.analyzeAudio st frame = some (f, c, st') ∧
      (0 ≤ f.bass ∧ f.bass ≤ 1) ∧ (0 ≤ f.mid ∧ f.mid ≤ 1) ∧
      (0 ≤ f.treble ∧ f.treble ≤ 1) ∧
      (0 ≤ f.dynamics ∧ f.dynamics ≤ 1) ∧ (0 ≤ f.energy ∧ f.energy ≤ 1) ∧
      (-1 ≤ f.harmony ∧ f.harmony ≤ 1) ∧ (60 ≤ f.tempo ∧ f.tempo ≤ 276) ∧
      (0 ≤ f.rhythm ∧ f.rhythm ≤ 9/5) ∧
      (f.mood = Mood.calm ∨ f.mood = Mood.energetic ∨ f.mood = Mood.dramatic ∨
        f.mood = Mood.mysterious ∨ f.mood = Mood.joyful) ∧
      (∀ y ∈ st'.beatHistory, 0 ≤ y ∧ y ≤ 9/5) := by
  have hne : frame ≠ [] := by
    intro h
    rw [h] at hlen
    simp at hlen
  obtain ⟨bass, h1, hb⟩ := extractBass_bounds hlen hin
  obtain ⟨mid, h2, hm⟩ := extractMid_bounds hlen hin
  obtain ⟨treble, h3, ht⟩ := extractTreble_bounds hlen hin
  obtain ⟨rhythm, h4, hr⟩ := analyzeRhythm_bounds { st with time := st.time + 1 } hb hm
  obtain ⟨harmony, h5, hh⟩ := analyzeHarmony_bounds hlen
  obtain ⟨dynamics, h6, hd⟩ := analyzeDynamics_bounds hne
  obtain ⟨energy, h7, he⟩ := calculateEnergy_bounds hne
  obtain ⟨tempo, h8, hte⟩ :=
    estimateTempo_bounds { st with time := st.time + 1 } rhythm hhist
  obtain ⟨vocal, h9⟩ := detectVocalPresence_some hlen
  obtain ⟨density, h10⟩ := calculateInstrumentalDensity_some hlen
  refine ⟨_, _, _, analyzeAudio_eval rfl h1 h2 h3 h4 h5 h6 h7 h8 h9 h10 rfl,
    hb, hm, ht, hd, he, hh, hte, hr, ?_, ?_⟩
  · cases hM : MusicBrain.determineMood energy harmony dynamics <;> simp [hM]
  · exact updateHistory_mem hhist hr

/-- C1 (witness): the amended theorem at the all-zero 128-sample frame from
the initial state. -/
theorem C1_witness :
    ((List.replicate 128 (0 : ℝ)).length = 128 ∧
      (∀ x ∈ List.replicate 128 (0 : ℝ), 0 ≤ x ∧ x ≤ 1) ∧
      (∀ y ∈ initialState.beatHistory, 0 ≤ y ∧ y ≤ 9/5)) ∧
    (∃ f c st', MusicBrain.analyzeAudio initialState (List.replicate 128 (0 : ℝ)) =
        some (f, c, st') ∧
      (0 ≤ f.bass ∧ f.bass ≤ 1) ∧ (0 ≤ f.mid ∧ f.mid ≤ 1) ∧
      (0 ≤ f.treble ∧ f.treble ≤ 1) ∧
      (0 ≤ f.dynamics ∧ f.dynamics ≤ 1) ∧ (0 ≤ f.energy ∧ f.energy ≤ 1) ∧
      (-1 ≤ f.harmony ∧ f.harmony ≤ 1) ∧ (60 ≤ f.tempo ∧ f.tempo ≤ 276) ∧
      (0 ≤ f.rhythm ∧ f.rhythm ≤ 9/5) ∧
      (f.mood = Mood.calm ∨ f.mood = Mood.energetic ∨ f.mood = Mood.dramatic ∨
        f.mood = Mood.mysterious ∨ f.mood = Mood.joyful) ∧
      (∀ y ∈ st'.beatHistory, 0 ≤ y ∧ y ≤ 9/5)) := by
  have e1 : (List.replicate 128 (0 : ℝ)).length = 128 := by simp
  have e2 : ∀ x ∈ List.replicate 128 (0 : ℝ), 0 ≤ x ∧ x ≤ 1 := by
    intro x hx
    rw [List.eq_of_mem_replicate hx]
    norm_num
  have e3 : ∀ y ∈ initialState.beatHistory, 0 ≤ y ∧ y ≤ 9/5 := by
    intro y hy
    simp [initialState] at hy
  exact ⟨⟨e1, e2, e3⟩, C1_feature_ranges initialState _ e1 e2 e3⟩

/-! ## Concrete evaluation of `analyzeAudio` on `frameAlt` -/

lemma ne_nil_len {l : List ℝ} (h : 0 < l.length) : l ≠ [] := List.length_pos.mp h

lemma mean_segAB : mean? (segA ++ segB) = some (1/2) := by
  rw [mean?_eq_some (ne_nil_len (by norm_num [segA, segB]))]
  norm_num [segA, segB]

lemma bass_frameAlt : MusicBrain.extractBass frameAlt = some (1/2) := by
  show mean? (jsSlice frameAlt 0 32) = some (1/2)
  rw [show jsSlice frameAlt 0 32 = segA ++ segB from rfl]
  exact mean_segAB

lemma mid_frameAlt : MusicBrain.extractMid frameAlt = some (1/2) := by
  show mean? (jsSlice frameAlt 32 96) = some (1/2)
  rw [show jsSlice frameAlt 32 96 = segA ++ segB ++ (segA ++ segB) from rfl,
    mean?_eq_some (ne_nil_len (by norm_num [segA, segB]))]
  norm_num [segA, segB]

lemma treble_frameAlt : MusicBrain.extractTreble frameAlt = some (1/2) := by
  show mean? (frameAlt.drop 96) = some (1/2)
  rw [show frameAlt.drop 96 = segA ++ segB from rfl]
  exact mean_segAB

lemma mean_segA : mean? segA = some (1/2) := by
  rw [mean?_eq_some (ne_nil_len (by norm_num [segA]))]
  norm_num [segA]

lemma mean_segB : mean? segB = some (1/2) := by
  rw [mean?_eq_some (ne_nil_len (by norm_num [segB]))]
  norm_num [segB]

lemma sqrt_sixteen : Real.sqrt (4 * 4) = 4 := by
  rw [show (4 : ℝ) * 4 = 4 ^ 2 from by norm_num, Real.sqrt_sq (by norm_num : (0:ℝ) ≤ 4)]

lemma corrAB : MusicBrain.calculateCorrelation segA segB = some (-1) := by
  simp only [MusicBrain.calculateCorrelation,
    if_neg (show ¬ segA.length ≠ segB.length from by norm_num [segA, segB]),
    mean_segA, mean_segB, Option.bind_eq_bind, Option.some_bind, Option.pure_def]
  have e1 : (∑ i ∈ Finset.range segA.length,
      (segA.getD i 0 - 1/2) * (segB.getD i 0 - 1/2)) = -4 := by
    rw [range_sum_getD_eq segA segB (by norm_num [segA, segB])
      (fun x y => (x - 1/2) * (y - 1/2))]
    norm_num [segA, segB]
  have e2 : (∑ i ∈ Finset.range segA.length,
      (segA.getD i 0 - 1/2) * (segA.getD i 0 - 1/2)) = 4 := by
    rw [range_sum_getD_eq segA segA rfl (fun x y => (x - 1/2) * (y - 1/2))]
    norm_num [segA]
  have e3 : (∑ i ∈ Finset.range segA.length,
      (segB.getD i 0 - 1/2) * (segB.getD i 0 - 1/2)) = 4 := by
    rw [range_sum_getD_eq segA segB (by norm_num [segA, segB])
      (fun x y => (y - 1/2) * (y - 1/2))]
    norm_num [segA, segB]
  rw [e1, e2, e3, sqrt_sixteen, if_neg (by norm_num : ¬ (4:ℝ) = 0)]
  norm_num

lemma corrBA : MusicBrain.calculateCorrelation segB segA = some (-1) := by
  simp only [MusicBrain.calculateCorrelation,
    if_neg (show ¬ segB.length ≠ segA.length from by norm_num [segA, segB]),
    mean_segA, mean_segB, Option.bind_eq_bind, Option.some_bind, Option.pure_def]
  have e1 : (∑ i ∈ Finset.range segB.length,
      (segB.getD i 0 - 1/2) * (segA.getD i 0 - 1/2)) = -4 := by
    rw [range_sum_getD_eq segB segA (by norm_num [segA, segB])
      (fun x y => (x - 1/2) * (y - 1/2))]
    norm_num [segA, segB]
  have e2 : (∑ i ∈ Finset.range segB.length,
      (segB.getD i 0 - 1/2) * (segB.getD i 0 - 1/2)) = 4 := by
    rw [range_sum_getD_eq segB segB rfl (fun x y => (x - 1/2) * (y - 1/2))]
    norm_num [segB]
  have e3 : (∑ i ∈ Finset.range segB.length,
      (segA.getD i 0 - 1/2) * (segA.getD i 0 - 1/2)) = 4 := by
    rw [range_sum_getD_eq segB segA (by norm_num [segA, segB])
      (fun x y => (y - 1/2) * (y - 1/2))]
    norm_num [segA, segB]
  rw [e1, e2, e3, sqrt_sixteen, if_neg (by norm_num : ¬ (4:ℝ) = 0)]
  norm_num

lemma harmony_frameAlt : MusicBrain.analyzeHarmony frameAlt = some (-1) := by
  simp only [MusicBrain.analyzeHarmony]
  rw [show List.range (8 - 1) = [0, 1, 2, 3, 4, 5, 6] from rfl]
  simp only [List.mapM_cons, List.mapM_nil,
    show jsSlice frameAlt (0 * (frameAlt.length / 8)) ((0 + 1) * (frameAlt.length / 8)) =
      segA from rfl,
    show jsSlice frameAlt ((0 + 1) * (frameAlt.length / 8))
      ((0 + 2) * (frameAlt.length / 8)) = segB from rfl,
    show jsSlice frameAlt (1 * (frameAlt.length / 8)) ((1 + 1) * (frameAlt.length / 8)) =
      segB from rfl,
    show jsSlice frameAlt ((1 + 1) * (frameAlt.length / 8))
      ((1 + 2) * (frameAlt.length / 8)) = segA from rfl,
    show jsSlice frameAlt (2 * (frameAlt.length / 8)) ((2 + 1) * (frameAlt.length / 8)) =
      segA from rfl,
    show jsSlice frameAlt ((2 + 1) * (frameAlt.length / 8))
      ((2 + 2) * (frameAlt.length / 8)) = segB from rfl,
    show jsSlice frameAlt (3 * (frameAlt.length / 8)) ((3 + 1) * (frameAlt.length / 8)) =
      segB from rfl,
    show jsSlice frameAlt ((3 + 1) * (frameAlt.length / 8))
      ((3 + 2) * (frameAlt.length / 8)) = segA from rfl,
    show jsSlice frameAlt (4 * (frameAlt.length / 8)) ((4 + 1) * (frameAlt.length / 8)) =
      segA from rfl,
    show jsSlice frameAlt ((4 + 1) * (frameAlt.length / 8))
      ((4 + 2) * (frameAlt.length / 8)) = segB from rfl,
    show jsSlice frameAlt (5 * (frameAlt.length / 8)) ((5 + 1) * (frameAlt.length / 8)) =
      segB from rfl,
    show jsSlice frameAlt ((5 + 1) * (frameAlt.length / 8))
      ((5 + 2) * (frameAlt.length / 8)) = segA from rfl,
    show jsSlice frameAlt (6 * (frameAlt.length / 8)) ((6 + 1) * (frameAlt.length / 8)) =
      segA from rfl,
    show jsSlice frameAlt ((6 + 1) * (frameAlt.length / 8))
      ((6 + 2) * (frameAlt.length / 8)) = segB from rfl,
    corrAB, corrBA, Option.bind_eq_bind, Option.some_bind, Option.pure_def,
    Option.map_some]
  norm_num

lemma dynamics_frameAlt : MusicBrain.analyzeDynamics frameAlt = some 1 := by
  have hm : mean? frameAlt = some (1/2) := by
    rw [mean?_eq_some (ne_nil_len (by simp [frameAlt, segA, segB]))]
    norm_num [frameAlt, segA, segB]
  have hv : mean? (frameAlt.map fun val => (val - 1/2) ^ 2) = some (1/4) := by
    rw [mean?_eq_some (ne_nil_len (by simp [frameAlt, segA, segB]))]
    norm_num [frameAlt, segA, segB]
  simp only [MusicBrain.analyzeDynamics, hm, Option.bind_eq_bind, Option.some_bind, hv,
    Option.pure_def]
  rw [show (1/4 : ℝ) = (1/2) ^ 2 from by norm_num,
    Real.sqrt_sq (by norm_num : (0:ℝ) ≤ 1/2)]
  norm_num

lemma energy_frameAlt : MusicBrain.calculateEnergy frameAlt = some 1 := by
  have hv : mean? (frameAlt.map fun val => val * val) = some (1/2) := by
    rw [mean?_eq_some (ne_nil_len (by simp [frameAlt, segA, segB]))]
    norm_num [frameAlt, segA, segB]
  simp only [MusicBrain.calculateEnergy, hv, Option.bind_eq_bind, Option.some_bind,
    Option.pure_def]
  have hs : (1 : ℝ) ≤ Real.sqrt (1/2) * 2 := by
    have h0 : Real.sqrt (1/2) ^ 2 = 1/2 := Real.sq_sqrt (by norm_num)
    have h1 : 0 ≤ Real.sqrt (1/2) := Real.sqrt_nonneg _
    nlinarith [h0, h1]
  rw [min_eq_left hs]

lemma vocal_frameAlt : MusicBrain.detectVocalPresence frameAlt = some true := by
  have hv1 : mean? (jsSlice frameAlt 8 24) = some (1/2) := by
    rw [show jsSlice frameAlt 8 24 =
      [(1:ℝ), 0, 1, 0, 1, 0, 1, 0, 0, 1, 0, 1, 0, 1, 0, 1] from rfl,
      mean?_eq_some (ne_nil_len (by norm_num))]
    norm_num
  have hv2 : mean? (jsSlice frameAlt 80 120) = some (1/2) := by
    rw [show jsSlice frameAlt 80 120 = segB ++ segA ++ [(0:ℝ), 1, 0, 1, 0, 1, 0, 1] from rfl,
      mean?_eq_some (ne_nil_len (by norm_num [segA, segB]))]
    norm_num [segA, segB]
  simp only [MusicBrain.detectVocalPresence, hv1, hv2, Option.bind_eq_bind,
    Option.some_bind, Option.pure_def]
  rw [show decide ((1/2 + 1/2) / 2 > (0.4 : ℝ)) = true from decide_eq_true (by norm_num)]

lemma density_frameAlt : MusicBrain.calculateInstrumentalDensity frameAlt = some (1/2) := by
  have ht : decide ((1:ℝ) > 0.1) = true := decide_eq_true (by norm_num)
  have hf : decide ((0:ℝ) > 0.1) = false := decide_eq_false (by norm_num)
  have hfil : (frameAlt.filter fun val => decide (val > 0.1)).length = 64 := by
    simp only [frameAlt, segA, segB, List.filter_append, List.filter_cons, ht, hf]
    simp
  simp only [MusicBrain.calculateInstrumentalDensity, jsDiv, hfil,
    show frameAlt.length = 128 from rfl]
  rw [if_neg (by norm_num)]
  norm_num

lemma rhythm_frameAlt :
    MusicBrain.analyzeRhythm { initialState with time := initialState.time + 1 }
      (1/2) (1/2) = some (3/5) := by
  simp only [MusicBrain.analyzeRhythm]
  rw [if_neg (by simp [initialState])]
  rw [show max ((1/2 : ℝ) * 1.2) ((1/2) * 0.8) = 3/5 from by
    rw [max_eq_left (by norm_num)]; norm_num]
  rfl

lemma tempo_frameAlt :
    MusicBrain.estimateTempo { initialState with time := initialState.time + 1 }
      (3/5) = some 120 := by
  unfold MusicBrain.estimateTempo
  rw [if_pos (by simp [initialState])]

lemma melody_frameAlt :
    MusicBrain.analyzeMelody { initialState with time := initialState.time + 1 }
      (1/2) (1/2) = 7/10 := by
  simp only [MusicBrain.analyzeMelody, initialState]
  norm_num

lemma mood_frameAlt : MusicBrain.determineMood 1 (-1) 1 = Mood.energetic := by
  unfold MusicBrain.determineMood
  rw [if_neg (by norm_num), if_pos (by norm_num)]

lemma genre_featAlt : MusicBrain.detectGenre featAlt = GenreHint.acoustic := by
  unfold MusicBrain.detectGenre
  rw [if_neg (by norm_num [featAlt]), if_neg (by norm_num [featAlt]),
    if_neg (by norm_num [featAlt]), if_neg (by norm_num [featAlt]),
    if_neg (by norm_num [featAlt])]

lemma analyzeAudio_frameAlt :
    MusicBrain.analyzeAudio initialState frameAlt = some (featAlt, ctxAlt, stAlt) := by
  have hF : featAlt = ⟨1/2, 1/2, 1/2, 3/5,
      MusicBrain.analyzeMelody { initialState with time := initialState.time + 1 }
        (1/2) (1/2), -1, 1, 1, 120, MusicBrain.determineMood 1 (-1) 1⟩ := by
    rw [melody_frameAlt, mood_frameAlt]
    rfl
  have h := analyzeAudio_eval rfl bass_frameAlt mid_frameAlt treble_frameAlt
    rhythm_frameAlt harmony_frameAlt dynamics_frameAlt energy_frameAlt tempo_frameAlt
    vocal_frameAlt density_frameAlt hF
  rw [h]
  have hbd : MusicBrain.detectBeatDrop
      { initialState with time := initialState.time + 1 } featAlt = false := rfl
  have hctx : (⟨MusicBrain.detectBeatDrop
        { initialState with time := initialState.time + 1 } featAlt,
      true, 1/2, (1 + 1 + -1) / 3, MusicBrain.detectGenre featAlt⟩ : MusicContext) =
      ctxAlt := by
    rw [hbd, genre_featAlt]
    simp only [ctxAlt, MusicContextG.mk.injEq]
    norm_num
  have hst : MusicBrain.updateHistory
      { initialState with time := initialState.time + 1, previousFeatures := some featAlt }
      (3/5) 1 = stAlt := by
    simp [MusicBrain.updateHistory, initialState, stAlt]
  rw [hctx, hst]

/-! ## C1: the claim itself -/

/-- C1 (counterexample): on `frameAlt` — a 128-sample frame with samples in
`[0,1]` — the 8 segments pairwise anti-correlate and `analyzeAudio` (from
the initial state) returns `harmony = -1 < 0`, refuting the claimed bound
`harmony ∈ [0,1]`. -/
theorem C1_counterexample :
    MusicBrain.analyzeAudio initialState frameAlt = some (featAlt, ctxAlt, stAlt) ∧
      featAlt.harmony < 0 ∧ (∀ x ∈ frameAlt, 0 ≤ x ∧ x ≤ 1) := by
  refine ⟨analyzeAudio_frameAlt, by norm_num [featAlt], ?_⟩
  intro x hx
  have h01 : x = 1 ∨ x = 0 := by
    simp [frameAlt, segA, segB] at hx
    tauto
  rcases h01 with h | h <;> subst h <;> norm_num

/-! ## C5: Scenario B — the uniform full-scale frame on a first tick -/

lemma slice_replicate (x : ℝ) (a b n : ℕ) :
    jsSlice (List.replicate n x) a b = List.replicate (min b n - a) x := by
  simp [jsSlice]

lemma corr_replicate (n : ℕ) (x : ℝ) (hn : n ≠ 0) :
    MusicBrain.calculateCorrelation (List.replicate n x) (List.replicate n x) = some 0 := by
  simp only [MusicBrain.calculateCorrelation,
    if_neg (show ¬ (List.replicate n x).length ≠ (List.replicate n x).length from by simp),
    mean?_replicate hn, Option.bind_eq_bind, Option.some_bind, Option.pure_def]
  have e : (∑ i ∈ Finset.range (List.replicate n x).length,
      ((List.replicate n x).getD i 0 - x) * ((List.replicate n x).getD i 0 - x)) = 0 := by
    apply Finset.sum_eq_zero
    intro i hi
    rw [Finset.mem_range, List.length_replicate] at hi
    rw [List.getD_eq_getElem?_getD, List.getElem?_replicate_of_lt hi]
    simp
  rw [e, show (0:ℝ) * 0 = 0 from by norm_num, Real.sqrt_zero, if_pos rfl]

lemma bass_uniform : MusicBrain.extractBass (List.replicate 128 (1:ℝ)) = some 1 := by
  show mean? (jsSlice (List.replicate 128 (1:ℝ)) 0 32) = some 1
  rw [slice_replicate, show min 32 128 - 0 = 32 from rfl]
  exact mean?_replicate (by norm_num)

lemma mid_uniform : MusicBrain.extractMid (List.replicate 128 (1:ℝ)) = some 1 := by
  show mean? (jsSlice (List.replicate 128 (1:ℝ)) 32 96) = some 1
  rw [slice_replicate, show min 96 128 - 32 = 64 from rfl]
  exact mean?_replicate (by norm_num)

lemma treble_uniform : MusicBrain.extractTreble (List.replicate 128 (1:ℝ)) = some 1 := by
  show mean? ((List.replicate 128 (1:ℝ)).drop 96) = some 1
  rw [List.drop_replicate, show (128 - 96 : ℕ) = 32 from rfl]
  exact mean?_replicate (by norm_num)

lemma harmony_uniform : MusicBrain.analyzeHarmony (List.replicate 128 (1:ℝ)) = some 0 := by
  simp only [MusicBrain.analyzeHarmony]
  rw [show List.range (8 - 1) = [0, 1, 2, 3, 4, 5, 6] from rfl]
  have hs : ∀ a b : ℕ, jsSlice (List.replicate 128 (1:ℝ)) a b =
      List.replicate (min b 128 - a) 1 := fun a b => slice_replicate 1 a b 128
  simp only [List.mapM_cons, List.mapM_nil, hs,
    show (List.replicate 128 (1:ℝ)).length = 128 from by simp]
  norm_num
  simp only [corr_replicate 16 1 (by norm_num), Option.bind_eq_bind, Option.some_bind,
    Option.pure_def, Option.map_some]
  norm_num

lemma dynamics_uniform : MusicBrain.analyzeDynamics (List.replicate 128 (1:ℝ)) = some 0 := by
  have hm : mean? (List.replicate 128 (1:ℝ)) = some 1 := mean?_replicate (by norm_num)
  have hv : mean? ((List.replicate 128 (1:ℝ)).map fun val => (val - 1) ^ 2) = some 0 := by
    rw [List.map_replicate, show ((1:ℝ) - 1) ^ 2 = 0 from by norm_num]
    exact mean?_replicate (by norm_num)
  simp only [MusicBrain.analyzeDynamics, hm, Option.bind_eq_bind, Option.some_bind, hv,
    Option.pure_def, Real.sqrt_zero]
  norm_num

lemma energy_uniform : MusicBrain.calculateEnergy (List.replicate 128 (1:ℝ)) = some 1 := by
  have hv : mean? ((List.replicate 128 (1:ℝ)).map fun val => val * val) = some 1 := by
    rw [List.map_replicate, show (1:ℝ) * 1 = 1 from by norm_num]
    exact mean?_replicate (by norm_num)
  simp only [MusicBrain.calculateEnergy, hv, Option.bind_eq_bind, Option.some_bind,
    Option.pure_def, Real.sqrt_one]
  norm_num

lemma rhythm_uniform :
    MusicBrain.analyzeRhythm { initialState with time := initialState.time + 1 } 1 1 =
      some 1.2 := by
  simp only [MusicBrain.analyzeRhythm]
  rw [if_neg (by simp [initialState])]
  rw [show max ((1:ℝ) * 1.2) (1 * 0.8) = 1.2 from by
    rw [max_eq_left (by norm_num)]; norm_num]
  rfl

lemma tempo_uniform :
    MusicBrain.estimateTempo { initialState with time := initialState.time + 1 } 1.2 =
      some 120 := by
  unfold MusicBrain.estimateTempo
  rw [if_pos (by simp [initialState])]

lemma melody_uniform :
    MusicBrain.analyzeMelody { initialState with time := initialState.time + 1 } 1 1 =
      1.4 := by
  simp only [MusicBrain.analyzeMelody, initialState]
  norm_num

lemma mood_uniform : MusicBrain.determineMood 1 0 0 = Mood.joyful := by
  unfold MusicBrain.determineMood
  rw [if_neg (by norm_num), if_neg (by norm_num), if_neg (by norm_num),
    if_neg (by norm_num)]

lemma vocal_uniform :
    MusicBrain.detectVocalPresence (List.replicate 128 (1:ℝ)) = some true := by
  have hv1 : mean? (jsSlice (List.replicate 128 (1:ℝ)) 8 24) = some 1 := by
    rw [slice_replicate, show min 24 128 - 8 = 16 from rfl]
    exact mean?_replicate (by norm_num)
  have hv2 : mean? (jsSlice (List.replicate 128 (1:ℝ)) 80 120) = some 1 := by
    rw [slice_replicate, show min 120 128 - 80 = 40 from rfl]
    exact mean?_replicate (by norm_num)
  simp only [MusicBrain.detectVocalPresence, hv1, hv2, Option.bind_eq_bind,
    Option.some_bind, Option.pure_def]
  rw [show decide (((1:ℝ) + 1) / 2 > 0.4) = true from decide_eq_true (by norm_num)]

lemma density_uniform :
    MusicBrain.calculateInstrumentalDensity (List.replicate 128 (1:ℝ)) = some 1 := by
  have ht : (fun val : ℝ => decide (val > 0.1)) 1 = true := decide_eq_true (by norm_num)
  have hfil : ((List.replicate 128 (1:ℝ)).filter fun val => decide (val > 0.1)) =
      List.replicate 128 1 := List.filter_replicate_of_pos ht
  simp only [MusicBrain.calculateInstrumentalDensity, jsDiv, hfil, List.length_replicate]
  rw [if_neg (by norm_num)]
  norm_num

/-- C5 (confirmed): Scenario B — on the first tick with the uniform
full-scale 128-sample frame, `analyzeAudio` returns exactly
`bass = mid = treble = 1`, `rhythm = 1.2` (unclamped), `melody = 1.4`
(unclamped, no previous features), `harmony = 0` (zero-variance guard),
`dynamics = 0`, `energy = 1`, `tempo = 120`, `mood = joyful`, and the
context's genre hint is `electronic` because the first rule
(`bass > 0.7 ∧ energy > 0.6`) wins. -/
theorem C5_scenarioB :
    MusicBrain.analyzeAudio initialState (List.replicate 128 (1:ℝ)) =
      some (⟨1, 1, 1, 1.2, 1.4, 0, 0, 1, 120, Mood.joyful⟩,
        ⟨false, true, 1, 1/3, GenreHint.electronic⟩,
        ⟨some ⟨1, 1, 1, 1.2, 1.4, 0, 0, 1, 120, Mood.joyful⟩, [1.2], [1], 1⟩) := by
  have hF : (⟨1, 1, 1, 1.2, 1.4, 0, 0, 1, 120, Mood.joyful⟩ : AudioFeatures) =
      ⟨1, 1, 1, 1.2,
        MusicBrain.analyzeMelody { initialState with time := initialState.time + 1 } 1 1,
        0, 0, 1, 120, MusicBrain.determineMood 1 0 0⟩ := by
    rw [melody_uniform, mood_uniform]
  have h := analyzeAudio_eval rfl bass_uniform mid_uniform treble_uniform rhythm_uniform
    harmony_uniform dynamics_uniform energy_uniform tempo_uniform vocal_uniform
    density_uniform hF
  rw [h]
  have hbd : MusicBrain.detectBeatDrop { initialState with time := initialState.time + 1 }
      ⟨1, 1, 1, 1.2, 1.4, 0, 0, 1, 120, Mood.joyful⟩ = false := rfl
  have hgen : MusicBrain.detectGenre
      (⟨1, 1, 1, 1.2, 1.4, 0, 0, 1, 120, Mood.joyful⟩ : AudioFeatures) =
      GenreHint.electronic := by
    unfold MusicBrain.detectGenre
    rw [if_pos (by norm_num)]
  have hctx : (⟨MusicBrain.detectBeatDrop { initialState with time := initialState.time + 1 }
        ⟨1, 1, 1, 1.2, 1.4, 0, 0, 1, 120, Mood.joyful⟩,
      true, 1, ((1:ℝ) + 0 + 0) / 3,
      MusicBrain.detectGenre ⟨1, 1, 1, 1.2, 1.4, 0, 0, 1, 120, Mood.joyful⟩⟩ :
        MusicContext) = ⟨false, true, 1, 1/3, GenreHint.electronic⟩ := by
    rw [hbd, hgen]
    simp only [MusicContextG.mk.injEq]
    norm_num
  have hst : MusicBrain.updateHistory
      { initialState with
        time := initialState.time + 1,
        previousFeatures := some ⟨1, 1, 1, 1.2, 1.4, 0, 0, 1, 120, Mood.joyful⟩ }
      1.2 1 =
      ⟨some ⟨1, 1, 1, 1.2, 1.4, 0, 0, 1, 120, Mood.joyful⟩, [1.2], [1], 1⟩ := by
    simp [MusicBrain.updateHistory, initialState]
  rw [hctx, hst]

/-! ## C8: the history caps -/

lemma analyzeAudio_state {st : MusicBrainState} {frame : List ℝ}
    {f : AudioFeatures} {c : MusicContext} {st' : MusicBrainState}
    (h : MusicBrain.analyzeAudio st frame = some (f, c, st')) :
    st' = MusicBrain.updateHistory
      { st with time := st.time + 1, previousFeatures := some f } f.rhythm f.energy := by
  simp only [MusicBrain.analyzeAudio, Option.bind_eq_bind, Option.bind_eq_some,
    Option.pure_def, Option.some.injEq] at h
  obtain ⟨bass, hb, mid, hm, treble, ht, rhythm, hr, harmony, hh, dynamics, hd,
    energy, he, tempo, hte, ctx, hctx, heq⟩ := h
  rw [Prod.mk.injEq, Prod.mk.injEq] at heq
  obtain ⟨hf, hc, hst⟩ := heq
  subst hf
  subst hst
  rfl

lemma updateHistory_le20 (st : MusicBrainState) (r e : ℝ)
    (h1 : st.beatHistory.length ≤ 20) (h2 : st.energyHistory.length ≤ 20) :
    (MusicBrain.updateHistory st r e).beatHistory.length ≤ 20 ∧
      (MusicBrain.updateHistory st r e).energyHistory.length ≤ 20 := by
  simp only [MusicBrain.updateHistory]
  constructor <;> (split_ifs with h <;>
    (simp only [List.length_drop, List.length_append, List.length_cons,
      List.length_nil] at h ⊢; omega))

lemma updateColorHistory_le10 (hist : List ColorPalette) (p : ColorPalette)
    (h : hist.length ≤ 10) :
    (ColorBrain.updateColorHistory hist p).length ≤ 10 := by
  simp only [ColorBrain.updateColorHistory]
  split_ifs with hc <;>
    (simp only [List.length_drop, List.length_append, List.length_cons,
      List.length_nil] at hc ⊢; omega)

/-- C8 (confirmed): both `MusicBrain` histories are capped at 20 entries and
the `ColorBrain` history at 10, with the oldest entry (`shift()`, the list
head) evicted on overflow; the caps are preserved by every `analyzeAudio` /
`generatePalette` call, hence hold forever from the empty initial state. -/
theorem C8_history_caps :
    (∀ (st : MusicBrainState) (frame : List ℝ) f c st',
      MusicBrain.analyzeAudio st frame = some (f, c, st') →
      st.beatHistory.length ≤ 20 → st.energyHistory.length ≤ 20 →
      st'.beatHistory.length ≤ 20 ∧ st'.energyHistory.length ≤ 20) ∧
    (∀ (st : MusicBrainState) (r e : ℝ),
      (st.beatHistory.length < 20 →
        (MusicBrain.updateHistory st r e).beatHistory = st.beatHistory ++ [r]) ∧
      (st.beatHistory.length = 20 →
        (MusicBrain.updateHistory st r e).beatHistory = (st.beatHistory ++ [r]).drop 1)) ∧
    (∀ (cst : ColorBrainState) (features : QFeatures) (context : QContext)
        (rngP rngC : ℕ → ℚ),
      cst.colorHistory.length ≤ 10 →
      (ColorBrain.generatePalette cst features context rngP rngC).2.colorHistory.length ≤ 10) ∧
    (∀ (hist : List ColorPalette) (p : ColorPalette),
      (hist.length < 10 → ColorBrain.updateColorHistory hist p = hist ++ [p]) ∧
      (hist.length = 10 →
        ColorBrain.updateColorHistory hist p = (hist ++ [p]).drop 1)) := by
  refine ⟨?_, ?_, ?_, ?_⟩
  · intro st frame f c st' h h1 h2
    rw [analyzeAudio_state h]
    exact updateHistory_le20 _ _ _ h1 h2
  · intro st r e
    constructor
    · intro h
      simp only [MusicBrain.updateHistory]
      rw [if_neg (by
        simp only [List.length_append, List.length_cons, List.length_nil]; omega)]
    · intro h
      simp only [MusicBrain.updateHistory]
      rw [if_pos (by
        simp only [List.length_append, List.length_cons, List.length_nil]; omega)]
  · intro cst features context rngP rngC h
    exact updateColorHistory_le10 _ _ h
  · intro hist p
    constructor
    · intro h
      simp only [ColorBrain.updateColorHistory]
      rw [if_neg (by
        simp only [List.length_append, List.length_cons, List.length_nil]; omega)]
    · intro h
      simp only [ColorBrain.updateColorHistory]
      rw [if_pos (by
        simp only [List.length_append, List.length_cons, List.length_nil]; omega)]

/-- C8 (witness): the caps applied to the concrete `frameAlt` tick and a
concrete fresh palette generation. -/
theorem C8_witness :
    (initialState.beatHistory.length ≤ 20 ∧ initialState.energyHistory.length ≤ 20 ∧
      stAlt.beatHistory.length ≤ 20 ∧ stAlt.energyHistory.length ≤ 20) ∧
    (initialColorState.colorHistory.length ≤ 10 ∧
      (ColorBrain.generatePalette initialColorState featsEnergy ctxElectronic rngHalf
        rngHalf).2.colorHistory.length ≤ 10) := by
  have h1 : initialState.beatHistory.length ≤ 20 := by simp [initialState]
  have h2 : initialState.energyHistory.length ≤ 20 := by simp [initialState]
  have h3 := (C8_history_caps.1) initialState frameAlt featAlt ctxAlt stAlt
    analyzeAudio_frameAlt h1 h2
  have h4 : initialColorState.colorHistory.length ≤ 10 := by simp [initialColorState]
  have h5 := (C8_history_caps.2.2.1) initialColorState featsEnergy ctxElectronic rngHalf
    rngHalf h4
  exact ⟨⟨h1, h2, h3.1, h3.2⟩, ⟨h4, h5⟩⟩

end SacredVis
